import Mathlib

/-
Verification of the Almost Stochastic Order implementation (deepsig/aso.py).

Shallow embedding conventions:
  * Python floats are modelled as exact numbers: the integration / quantile /
    bootstrap-sample layer lives in `ℚ` (it only uses field operations and
    comparisons), and the layer that takes square roots, the normal inverse
    CDF, `exp` / `log` / `erf` / `Gamma` lives in `ℝ`.
  * `np.random` is modelled by explicit random sources passed as arguments:
    `rand : ℤ → List ℚ × List ℚ` gives the two uniform-draw batches produced
    after `np.random.seed s` (they are a deterministic function of the seed),
    and `ambient : ℕ → List ℚ × List ℚ` gives the draws of the k-th iteration
    when no seed was supplied.
  * `scipy`'s `erf` is an external special function; definitions that use it
    take it as an explicit function argument.
  * Python `assert` failures (fail-fast validation) are modelled by
    `Except String`.
-/

/-- `np.arange 0 1 dt`: the grid 0, dt, 2*dt, ... with k*dt < 1;
its length is ⌈1/dt⌉ (empty for dt ≤ 0, matching an empty/invalid arange). -/
def arangeGrid (dt : ℚ) : List ℚ :=
  (List.range (Int.toNat ⌈(1 : ℚ) / dt⌉)).map (fun (k : ℕ) => (k : ℚ) * dt)

/-- `np.sort(scores)`: the ascending sort of the sample. -/
def sortedScores (scores : List ℚ) : List ℚ :=
  scores.insertionSort (· ≤ ·)

/-- `min(num - 1, max(0, index - 1))` with `index = int(np.ceil(num * p))`,
from `get_quantile_function._quantile_function`. -/
def clampedIndex (n : ℕ) (p : ℚ) : ℕ :=
  (min ((n : ℤ) - 1) (max 0 (⌈(n : ℚ) * p⌉ - 1))).toNat

/-- `get_quantile_function(scores)` applied to a probability `p`:
sort the sample ascending and index with the clamped `ceil(n*p) - 1`. -/
def quantileFunction (scores : List ℚ) (p : ℚ) : ℚ :=
  (sortedScores scores).getD (clampedIndex scores.length p) 0

/-- The accumulated `squared_wasserstein_dist` of `compute_violation_ratio`:
sum over the grid of `(quantile_func_b p - quantile_func_a p)^2 * dt`. -/
def squaredWassersteinDist (scores_a scores_b : List ℚ) (dt : ℚ) : ℚ :=
  ((arangeGrid dt).map
    (fun p => (quantileFunction scores_b p - quantileFunction scores_a p) ^ 2 * dt)).sum

/-- The accumulated `int_violation_set` of `compute_violation_ratio`:
sum over the grid of `max(diff, 0)^2 * dt`. -/
def intViolationSet (scores_a scores_b : List ℚ) (dt : ℚ) : ℚ :=
  ((arangeGrid dt).map
    (fun p => (max (quantileFunction scores_b p - quantileFunction scores_a p) 0) ^ 2 * dt)).sum

/-- `compute_violation_ratio(scores_a, scores_b, dt)` together with the flag
recording whether the division-by-zero warning was emitted. -/
def computeViolationRatioW (scores_a scores_b : List ℚ) (dt : ℚ) : ℚ × Bool :=
  if squaredWassersteinDist scores_a scores_b dt = 0 then (0, true)
  else (intViolationSet scores_a scores_b dt / squaredWassersteinDist scores_a scores_b dt, false)

/-- The value returned by `compute_violation_ratio`. -/
def computeViolationRatio (scores_a scores_b : List ℚ) (dt : ℚ) : ℚ :=
  (computeViolationRatioW scores_a scores_b dt).1

/-- One `_bootstrap_iter`: map the uniform draws through the two quantile
functions (inverse-transform resampling) and take the violation ratio of the
resampled pair. `draws` is the pair of uniform batches of this iteration. -/
def bootstrapIter (scores_a scores_b : List ℚ) (dt : ℚ) (draws : List ℚ × List ℚ) : ℚ :=
  computeViolationRatio
    (draws.1.map (quantileFunction scores_a))
    (draws.2.map (quantileFunction scores_b))
    dt

/-- The per-iteration seed of `get_bootstrap_estimates`: `seed + k + 1` when a
global seed was supplied (`seeds = [seed + offset for offset in range(1, n+1)]`),
else no seed. -/
def iterSeed (seed : Option ℤ) (k : ℕ) : Option ℤ :=
  seed.map (fun s => s + k + 1)

/-- The uniform draws consumed by iteration `k`: a deterministic function of the
per-iteration seed when one exists (`np.random.seed(seed)` resets the stream),
else the ambient global stream. -/
def iterDraws (rand : ℤ → List ℚ × List ℚ) (ambient : ℕ → List ℚ × List ℚ)
    (seed : Option ℤ) (k : ℕ) : List ℚ × List ℚ :=
  match iterSeed seed k with
  | some s => rand s
  | none => ambient k

/-- The list of bootstrap samples produced by the `joblib.Parallel` map in
`get_bootstrap_estimates`; `Parallel` returns results in task order, so the
list does not depend on `num_jobs`. -/
def bootstrapSamples (rand : ℤ → List ℚ × List ℚ) (ambient : ℕ → List ℚ × List ℚ)
    (scores_a scores_b : List ℚ) (num_bootstrap_iterations : ℤ) (dt : ℚ)
    (seed : Option ℤ) : List ℚ :=
  (List.range num_bootstrap_iterations.toNat).map
    (fun k => bootstrapIter scores_a scores_b dt (iterDraws rand ambient seed k))

/-- `np.mean` of a rational list (0 on the empty list). -/
def listMean (l : List ℚ) : ℚ := l.sum / l.length

/-- `np.std` (population standard deviation, `ddof = 0`) of a real list. -/
noncomputable def realStd (l : List ℝ) : ℝ :=
  Real.sqrt (((l.map (fun x => (x - l.sum / l.length) ^ 2)).sum) / l.length)

/-- The `sigma_hat` expression of `get_bootstrap_estimates`:
`const2 = sqrt(num_samples^2 / (2 * num_samples))` and
`sigma_hat = np.std(const2 * (samples - violation_ratio))` (defined whenever
that numpy expression is; see `getBootstrapEstimates` for the case it is not). -/
noncomputable def sigmaHat (rand : ℤ → List ℚ × List ℚ)
    (ambient : ℕ → List ℚ × List ℚ) (scores_a scores_b : List ℚ)
    (num_samples num_bootstrap_iterations : ℤ) (dt : ℚ) (seed : Option ℤ) : ℝ :=
  let violation_ratio := computeViolationRatio scores_a scores_b dt
  let samples := bootstrapSamples rand ambient scores_a scores_b num_bootstrap_iterations dt seed
  let const2 := Real.sqrt ((num_samples : ℝ) ^ 2 / (2 * (num_samples : ℝ)))
  realStd (samples.map (fun (s : ℚ) => const2 * ((s : ℝ) - (violation_ratio : ℝ))))

/-- `get_bootstrap_estimates`: returns `(violation_ratio, sigma_hat, samples)`.

Crash path of the source: when the baseline `squared_wasserstein_dist` is 0,
`compute_violation_ratio` takes its guard branch and returns the Python int 0
(in the other branch the ratio is a 0-d ndarray). `samples` is the plain list
returned by `joblib.Parallel`, so `np.std(const2 * (samples - violation_ratio))`
then evaluates `list - int` and raises `TypeError` — there is no numpy operand
to trigger broadcasting. The call aborts with the exception; nothing of the
already-computed sample list escapes, so the error branch here drops it. -/
noncomputable def getBootstrapEstimates (rand : ℤ → List ℚ × List ℚ)
    (ambient : ℕ → List ℚ × List ℚ) (scores_a scores_b : List ℚ)
    (num_samples num_bootstrap_iterations : ℤ) (dt : ℚ) (num_jobs : ℤ)
    (seed : Option ℤ) : Except String (ℝ × ℝ × List ℚ) :=
  if squaredWassersteinDist scores_a scores_b dt = 0 then
    Except.error "TypeError: unsupported operand types for -: list and int"
  else
    Except.ok ((computeViolationRatio scores_a scores_b dt : ℝ),
      sigmaHat rand ambient scores_a scores_b num_samples
        num_bootstrap_iterations dt seed,
      bootstrapSamples rand ambient scores_a scores_b num_bootstrap_iterations dt seed)

/-- The value computed by `aso` from the bootstrap estimates:
`const1 = sqrt(|A|*|B| / (|A|+|B|))` and
`min(max(violation_ratio - (1/const1) * sigma_hat * normal.ppf(confidence_level), 0), 1)`.
`phiInv` is the standard normal inverse CDF `normal.ppf`, taken as an abstract
real function of the confidence level. -/
noncomputable def asoValue (phiInv : ℝ → ℝ) (scores_a scores_b : List ℚ)
    (confidence_level : ℝ) (est : ℝ × ℝ × List ℚ) : ℝ :=
  let const1 := Real.sqrt (((scores_a.length : ℝ) * (scores_b.length : ℝ)) /
    ((scores_a.length : ℝ) + (scores_b.length : ℝ)))
  min (max (est.1 - (1 / const1) * est.2.1 * phiInv confidence_level) 0) 1

/-- `aso`: the four `assert` validations (fail fast, modelled as `Except`),
then the bootstrap (whose `TypeError` on a degenerate baseline propagates out)
and the clamped confidence bound. -/
noncomputable def aso (phiInv : ℝ → ℝ) (rand : ℤ → List ℚ × List ℚ)
    (ambient : ℕ → List ℚ × List ℚ) (scores_a scores_b : List ℚ)
    (confidence_level : ℝ) (num_samples num_bootstrap_iterations : ℤ) (dt : ℚ)
    (num_jobs : ℤ) (seed : Option ℤ) : Except String ℝ :=
  if scores_a.length = 0 ∨ scores_b.length = 0 then
    Except.error "Both lists of scores must be non-empty."
  else if num_samples ≤ 0 then
    Except.error "num_samples must be positive."
  else if num_bootstrap_iterations ≤ 0 then
    Except.error "num_bootstrap_iterations must be positive."
  else if num_jobs ≤ 0 then
    Except.error "Number of jobs has to be at least 1."
  else
    (getBootstrapEstimates rand ambient scores_a scores_b num_samples
        num_bootstrap_iterations dt num_jobs seed).map
      (fun est => asoValue phiInv scores_a scores_b confidence_level est)

/-- `np.eye(n)` as a function matrix. -/
noncomputable def eyeMatrix (n : ℕ) : ℕ → ℕ → ℝ :=
  fun i j => if i = j ∧ i < n then 1 else 0

/-- A single in-place matrix write `M[a, b] = x`. -/
noncomputable def matUpdate (M : ℕ → ℕ → ℝ) (a b : ℕ) (x : ℝ) : ℕ → ℕ → ℝ :=
  fun i j => if i = a ∧ j = b then x else M i j

/-- One inner-loop body of `multi_aso` for loop indices `(i, j)`:
`key_j = indices[(i+1):][j] = i + 1 + j` (the data index), while the matrix is
written at position `(i, j)` exactly as the source does; the symmetry branch
copies `eps_min[i, j]` into `eps_min[j, i]`, the other branch overwrites
`eps_min[i, j]` with `aso(scores_b, scores_a, ...)`. -/
noncomputable def multiAsoStep (phiInv : ℝ → ℝ) (rand : ℤ → List ℚ × List ℚ)
    (ambient : ℕ → List ℚ × List ℚ) (scores : List (List ℚ))
    (confidence_level : ℝ) (use_symmetry : Bool)
    (num_samples num_bootstrap_iterations : ℤ) (dt : ℚ) (num_jobs : ℤ)
    (seed : Option ℤ) (M : ℕ → ℕ → ℝ) (ij : ℕ × ℕ) :
    Except String (ℕ → ℕ → ℝ) := do
  let i := ij.1
  let j := ij.2
  let key_j := i + 1 + j
  let scores_a := scores.getD i []
  let scores_b := scores.getD key_j []
  let v ← aso phiInv rand ambient scores_a scores_b confidence_level
    num_samples num_bootstrap_iterations dt num_jobs seed
  let M1 := matUpdate M i j v
  if use_symmetry then
    pure (matUpdate M1 j i (M1 i j))
  else do
    let v2 ← aso phiInv rand ambient scores_b scores_a confidence_level
      num_samples num_bootstrap_iterations dt num_jobs seed
    pure (matUpdate M1 i j v2)

/-- `multi_aso` on an already-converted nested list of scores: Bonferroni
division of the confidence level by `n*(n-1)/2`, then the double loop
`for i, key_i in enumerate(indices): for j, key_j in enumerate(indices[(i+1):])`
folded in program order over the initial `np.eye(n)` matrix. -/
noncomputable def multiAso (phiInv : ℝ → ℝ) (rand : ℤ → List ℚ × List ℚ)
    (ambient : ℕ → List ℚ × List ℚ) (scores : List (List ℚ))
    (confidence_level : ℝ) (use_bonferroni use_symmetry : Bool)
    (num_samples num_bootstrap_iterations : ℤ) (dt : ℚ) (num_jobs : ℤ)
    (seed : Option ℤ) : Except String (ℕ → ℕ → ℝ) :=
  let n := scores.length
  let num_comparisons : ℝ := (n : ℝ) * ((n : ℝ) - 1) / 2
  let cl := if use_bonferroni then confidence_level / num_comparisons else confidence_level
  let pairs := (List.range n).flatMap (fun i => (List.range (n - (i + 1))).map (fun j => (i, j)))
  pairs.foldlM
    (multiAsoStep phiInv rand ambient scores cl use_symmetry num_samples
      num_bootstrap_iterations dt num_jobs seed)
    (eyeMatrix n)

/-- `normal_inverse_gamma_cdf` from the source, with `erf` passed in as the
external special function. Over the reals `num_term` is always finite, so the
`np.isinf` clamp to `sys.maxsize` is unreachable and not modelled. -/
noncomputable def normal_inverse_gamma_cdf (erf : ℝ → ℝ)
    (x varr loc scale alpha beta : ℝ) : ℝ :=
  let eps : ℝ := 1 / 1000000
  let eps_var := varr + eps
  let num_term := Real.exp (-beta / eps_var) + (beta / eps_var) ^ alpha
  let numerator := num_term +
    erf (Real.sqrt scale * (x - loc) / (Real.sqrt (2 * varr) + eps) + 1)
  let denominator := 2 * varr * Real.Gamma alpha + eps
  Real.exp (Real.log numerator - Real.log denominator)

/-- The pair `(cdf_post, cdf_prior)` computed inside `bf_aso` from the
bootstrap estimates `est = (violation_ratio, sigma_hat, samples)`:
`const = sqrt(len_a + len_b / (len_a * len_b))`, `var = const * sigma_hat`,
the Normal-Inverse-Gamma conjugate update of the prior
`(loc, scale, alpha, beta)`, and the NIG CDF at `eps_min_threshold` under the
posterior and the prior parameters. -/
noncomputable def bfCdfs (erf : ℝ → ℝ) (scores_a scores_b : List ℚ)
    (eps_min_threshold prior_loc prior_scale prior_alpha prior_beta : ℝ)
    (est : ℝ × ℝ × List ℚ) : ℝ × ℝ :=
  let sigma_hat := est.2.1
  let samples := est.2.2
  let const := Real.sqrt ((scores_a.length : ℝ) +
    (scores_b.length : ℝ) / ((scores_a.length : ℝ) * (scores_b.length : ℝ)))
  let varr := const * sigma_hat
  let N : ℝ := (scores_a.length : ℝ) + (scores_b.length : ℝ)
  let sample_mean : ℝ := (listMean samples : ℝ)
  let posterior_loc := (prior_scale * prior_loc + N * sample_mean) / (prior_scale + N)
  let posterior_scale := prior_scale + N
  let posterior_alpha := prior_alpha + N / 2
  let posterior_beta := prior_beta +
    (1 / 2) * ((samples.map (fun (s : ℚ) => ((s : ℝ) - sample_mean) ^ 2)).sum) +
    N * prior_scale / (prior_scale + N) * (sample_mean - prior_loc) ^ 2 / 2
  (normal_inverse_gamma_cdf erf eps_min_threshold varr posterior_loc
      posterior_scale posterior_alpha posterior_beta,
   normal_inverse_gamma_cdf erf eps_min_threshold varr prior_loc prior_scale
      prior_alpha prior_beta)

/-- `bf_aso`: validations, then the bootstrap run (without a seed; its
`TypeError` on a degenerate baseline propagates out), then
`BF_01 = exp(log((1 - cdf_post) * cdf_prior + eps) - log(cdf_post * (1 - cdf_prior) + eps))`
with `eps = 1e-6`. -/
noncomputable def bf_aso (erf : ℝ → ℝ) (rand : ℤ → List ℚ × List ℚ)
    (ambient : ℕ → List ℚ × List ℚ) (scores_a scores_b : List ℚ)
    (eps_min_threshold prior_loc prior_scale prior_alpha prior_beta : ℝ)
    (num_bootstrap_samples num_bootstrap_iterations : ℤ) (dt : ℚ)
    (num_jobs : ℤ) : Except String ℝ :=
  if scores_a.length = 0 ∨ scores_b.length = 0 then
    Except.error "Both lists of scores must be non-empty."
  else if num_bootstrap_samples ≤ 0 then
    Except.error "num_samples must be positive."
  else if num_bootstrap_iterations ≤ 0 then
    Except.error "num_bootstrap_iterations must be positive."
  else if num_jobs ≤ 0 then
    Except.error "Number of jobs has to be at least 1."
  else
    (getBootstrapEstimates rand ambient scores_a scores_b num_bootstrap_samples
        num_bootstrap_iterations dt num_jobs none).map (fun est =>
      let c := bfCdfs erf scores_a scores_b eps_min_threshold prior_loc
        prior_scale prior_alpha prior_beta est
      let numerator := (1 - c.1) * c.2
      let denominator := c.1 * (1 - c.2)
      let eps : ℝ := 1 / 1000000
      Real.exp (Real.log (numerator + eps) - Real.log (denominator + eps)))

/-! ### Fixed inputs used by concrete runs -/

/-- Constant-zero stand-in for `normal.ppf` in concrete runs (any function is
admissible for the claims; concrete runs fix one). -/
noncomputable def wPhiInv : ℝ → ℝ := fun _ => 0

/-- Constant-zero stand-in for the external `erf` (any function is admissible
for the claims; concrete runs fix one). -/
noncomputable def wErf : ℝ → ℝ := fun _ => 0

/-- Seeded random source of the concrete runs (unused when no seed is passed). -/
def wRand : ℤ → List ℚ × List ℚ := fun _ => ([], [])

/-- Ambient random source of the concrete runs: iteration 0 draws
`([1/2, 1/2], [9/10, 9/10])`, every later iteration draws
`([1/2, 1/2], [1/10, 1/10])`. -/
def wAmbient : ℕ → List ℚ × List ℚ := fun k =>
  if k = 0 then ([1/2, 1/2], [9/10, 9/10]) else ([1/2, 1/2], [1/10, 1/10])

/-! ### Helper lemmas about the quantile function -/

theorem ceil_eval {q : ℚ} {z : ℤ} (h1 : (z : ℚ) - 1 < q) (h2 : q ≤ (z : ℚ)) :
    ⌈q⌉ = z :=
  Int.ceil_eq_iff.mpr ⟨h1, h2⟩

theorem sortedScores_perm (l : List ℚ) : List.Perm (sortedScores l) l :=
  List.perm_insertionSort _ _

theorem sortedScores_sorted (l : List ℚ) : (sortedScores l).Sorted (· ≤ ·) :=
  List.sorted_insertionSort _ _

theorem sortedScores_length (l : List ℚ) : (sortedScores l).length = l.length :=
  (sortedScores_perm l).length_eq

theorem clampedIndex_lt {n : ℕ} (hn : 0 < n) (p : ℚ) : clampedIndex n p < n := by
  unfold clampedIndex
  generalize ⌈(n : ℚ) * p⌉ = c
  omega

theorem quantileFunction_eq_get (scores : List ℚ) (p : ℚ) (hn : 0 < scores.length) :
    quantileFunction scores p =
      (sortedScores scores).get
        ⟨clampedIndex scores.length p, by rw [sortedScores_length]; exact clampedIndex_lt hn p⟩ := by
  unfold quantileFunction
  have h : clampedIndex scores.length p < (sortedScores scores).length := by
    rw [sortedScores_length]; exact clampedIndex_lt hn p
  simp [List.getD_eq_getElem?_getD, List.getElem?_eq_getElem h]

theorem quantileFunction_mem (scores : List ℚ) (p : ℚ) (hne : scores ≠ []) :
    quantileFunction scores p ∈ scores := by
  have hn : 0 < scores.length := List.length_pos.mpr hne
  rw [quantileFunction_eq_get scores p hn]
  exact (sortedScores_perm scores).mem_iff.mp (List.get_mem _ _ _)

theorem quantileFunction_nil (p : ℚ) : quantileFunction [] p = 0 := rfl

theorem quantileFunction_const {scores : List ℚ} {c : ℚ} (h : ∀ x ∈ scores, x = c)
    (hne : scores ≠ []) (p : ℚ) : quantileFunction scores p = c :=
  h _ (quantileFunction_mem scores p hne)

theorem quantileFunction_nonneg {scores : List ℚ} (h : ∀ x ∈ scores, 0 ≤ x) (p : ℚ) :
    0 ≤ quantileFunction scores p := by
  rcases eq_or_ne scores [] with rfl | hne
  · simp [quantileFunction_nil]
  · exact h _ (quantileFunction_mem scores p hne)

theorem quantileFunction_nonpos {scores : List ℚ} (h : ∀ x ∈ scores, x ≤ 0) (p : ℚ) :
    quantileFunction scores p ≤ 0 := by
  rcases eq_or_ne scores [] with rfl | hne
  · simp [quantileFunction_nil]
  · exact h _ (quantileFunction_mem scores p hne)

/-! ### Helper lemmas: a pair with pointwise dominance has violation ratio 0 -/

theorem intViolationSet_eq_zero_of_dominated {scores_a scores_b : List ℚ} {dt : ℚ}
    (h : ∀ p, quantileFunction scores_b p ≤ quantileFunction scores_a p) :
    intViolationSet scores_a scores_b dt = 0 := by
  unfold intViolationSet
  apply List.sum_eq_zero
  intro x hx
  obtain ⟨p, _, rfl⟩ := List.mem_map.mp hx
  rw [max_eq_right (sub_nonpos.mpr (h p))]
  ring

theorem computeViolationRatio_eq_zero_of_dominated {scores_a scores_b : List ℚ} {dt : ℚ}
    (h : ∀ p, quantileFunction scores_b p ≤ quantileFunction scores_a p) :
    computeViolationRatio scores_a scores_b dt = 0 := by
  unfold computeViolationRatio computeViolationRatioW
  split
  · rfl
  · simp [intViolationSet_eq_zero_of_dominated h]

theorem bootstrapIter_eq_zero_of_signs {scores_a scores_b : List ℚ} {dt : ℚ}
    (hA : ∀ x ∈ scores_a, 0 ≤ x) (hB : ∀ x ∈ scores_b, x ≤ 0)
    (draws : List ℚ × List ℚ) : bootstrapIter scores_a scores_b dt draws = 0 := by
  unfold bootstrapIter
  apply computeViolationRatio_eq_zero_of_dominated
  intro p
  have ha : ∀ y ∈ draws.1.map (quantileFunction scores_a), 0 ≤ y := by
    intro y hy
    obtain ⟨u, _, rfl⟩ := List.mem_map.mp hy
    exact quantileFunction_nonneg hA u
  have hb : ∀ y ∈ draws.2.map (quantileFunction scores_b), y ≤ 0 := by
    intro y hy
    obtain ⟨u, _, rfl⟩ := List.mem_map.mp hy
    exact quantileFunction_nonpos hB u
  exact le_trans (quantileFunction_nonpos hb p) (quantileFunction_nonneg ha p)

theorem realStd_of_all_zero {l : List ℝ} (h : ∀ x ∈ l, x = 0) : realStd l = 0 := by
  unfold realStd
  have hsum : l.sum = 0 := List.sum_eq_zero h
  have : (l.map (fun x => (x - l.sum / l.length) ^ 2)).sum = 0 := by
    apply List.sum_eq_zero
    intro x hx
    obtain ⟨y, hy, rfl⟩ := List.mem_map.mp hx
    rw [h y hy, hsum]
    simp
  rw [this]
  simp [Real.sqrt_zero]

theorem sigmaHat_of_signs (rand : ℤ → List ℚ × List ℚ)
    (ambient : ℕ → List ℚ × List ℚ) {scores_a scores_b : List ℚ}
    (num_samples num_bootstrap_iterations : ℤ) (dt : ℚ)
    (seed : Option ℤ) (hA : ∀ x ∈ scores_a, 0 ≤ x) (hB : ∀ x ∈ scores_b, x ≤ 0) :
    sigmaHat rand ambient scores_a scores_b num_samples
      num_bootstrap_iterations dt seed = 0 := by
  have hdom : ∀ p, quantileFunction scores_b p ≤ quantileFunction scores_a p :=
    fun p => le_trans (quantileFunction_nonpos hB p) (quantileFunction_nonneg hA p)
  have hv : computeViolationRatio scores_a scores_b dt = 0 :=
    computeViolationRatio_eq_zero_of_dominated hdom
  have hsamples : ∀ s ∈ bootstrapSamples rand ambient scores_a scores_b
      num_bootstrap_iterations dt seed, s = (0 : ℚ) := by
    intro s hs
    obtain ⟨k, _, rfl⟩ := List.mem_map.mp hs
    exact bootstrapIter_eq_zero_of_signs hA hB _
  unfold sigmaHat
  rw [hv]
  apply realStd_of_all_zero
  intro x hx
  obtain ⟨s, hs, rfl⟩ := List.mem_map.mp hx
  rw [hsamples s hs]
  simp

theorem getBootstrapEstimates_of_signs (rand : ℤ → List ℚ × List ℚ)
    (ambient : ℕ → List ℚ × List ℚ) {scores_a scores_b : List ℚ}
    (num_samples num_bootstrap_iterations : ℤ) (dt : ℚ) (num_jobs : ℤ)
    (seed : Option ℤ) (hA : ∀ x ∈ scores_a, 0 ≤ x) (hB : ∀ x ∈ scores_b, x ≤ 0)
    (hswd : squaredWassersteinDist scores_a scores_b dt ≠ 0) :
    getBootstrapEstimates rand ambient scores_a scores_b num_samples
        num_bootstrap_iterations dt num_jobs seed =
      Except.ok (0, 0, bootstrapSamples rand ambient scores_a scores_b
        num_bootstrap_iterations dt seed) := by
  have hdom : ∀ p, quantileFunction scores_b p ≤ quantileFunction scores_a p :=
    fun p => le_trans (quantileFunction_nonpos hB p) (quantileFunction_nonneg hA p)
  have hv : computeViolationRatio scores_a scores_b dt = 0 :=
    computeViolationRatio_eq_zero_of_dominated hdom
  unfold getBootstrapEstimates
  rw [if_neg hswd, hv, sigmaHat_of_signs rand ambient num_samples
    num_bootstrap_iterations dt seed hA hB]
  norm_num

theorem asoValue_zero_est (phiInv : ℝ → ℝ) (scores_a scores_b : List ℚ)
    (confidence_level : ℝ) (samples : List ℚ) :
    asoValue phiInv scores_a scores_b confidence_level (0, 0, samples) = 0 := by
  unfold asoValue
  simp

theorem aso_of_signs (phiInv : ℝ → ℝ) (rand : ℤ → List ℚ × List ℚ)
    (ambient : ℕ → List ℚ × List ℚ) {scores_a scores_b : List ℚ}
    (confidence_level : ℝ) {num_samples num_bootstrap_iterations : ℤ} (dt : ℚ)
    {num_jobs : ℤ} (seed : Option ℤ)
    (hA : ∀ x ∈ scores_a, 0 ≤ x) (hB : ∀ x ∈ scores_b, x ≤ 0)
    (hane : scores_a ≠ []) (hbne : scores_b ≠ [])
    (hns : 0 < num_samples) (hit : 0 < num_bootstrap_iterations) (hj : 1 ≤ num_jobs)
    (hswd : squaredWassersteinDist scores_a scores_b dt ≠ 0) :
    aso phiInv rand ambient scores_a scores_b confidence_level num_samples
      num_bootstrap_iterations dt num_jobs seed = Except.ok 0 := by
  unfold aso
  rw [if_neg, if_neg (by omega), if_neg (by omega), if_neg (by omega)]
  · rw [getBootstrapEstimates_of_signs rand ambient num_samples
      num_bootstrap_iterations dt num_jobs seed hA hB hswd]
    show Except.ok (asoValue phiInv scores_a scores_b confidence_level
      (0, 0, bootstrapSamples rand ambient scores_a scores_b
        num_bootstrap_iterations dt seed)) = Except.ok 0
    rw [asoValue_zero_est]
  · push_neg
    constructor <;> simp [List.length_eq_zero, hane, hbne]

/-! ### When the squared Wasserstein distance vanishes, and when it cannot -/

theorem squaredWassersteinDist_self (scores : List ℚ) (dt : ℚ) :
    squaredWassersteinDist scores scores dt = 0 := by
  unfold squaredWassersteinDist
  apply List.sum_eq_zero
  intro x hx
  obtain ⟨p, _, rfl⟩ := List.mem_map.mp hx
  rw [sub_self]
  ring

theorem arangeGrid_length (dt : ℚ) :
    (arangeGrid dt).length = Int.toNat ⌈(1 : ℚ) / dt⌉ := by
  unfold arangeGrid
  rw [List.length_map, List.length_range]

theorem arangeGrid_ne_nil {dt : ℚ} (hdt : 0 < dt) : arangeGrid dt ≠ [] := by
  have h1 : (0 : ℚ) < 1 / dt := by positivity
  have h2 : 0 < ⌈(1 : ℚ) / dt⌉ := Int.ceil_pos.mpr h1
  intro hcon
  have hlen := arangeGrid_length dt
  rw [hcon] at hlen
  simp only [List.length_nil] at hlen
  omega

theorem squaredWassersteinDist_pos_of_consts {scores_a scores_b : List ℚ}
    {ca cb : ℚ} (hA : ∀ x ∈ scores_a, x = ca) (hB : ∀ x ∈ scores_b, x = cb)
    (hane : scores_a ≠ []) (hbne : scores_b ≠ []) (hcc : cb ≠ ca) {dt : ℚ}
    (hdt : 0 < dt) : 0 < squaredWassersteinDist scores_a scores_b dt := by
  unfold squaredWassersteinDist
  apply List.sum_pos
  · intro x hx
    obtain ⟨p, _, rfl⟩ := List.mem_map.mp hx
    rw [quantileFunction_const hA hane p, quantileFunction_const hB hbne p]
    have hd : cb - ca ≠ 0 := sub_ne_zero.mpr hcc
    positivity
  · intro hcon
    exact arangeGrid_ne_nil hdt (List.map_eq_nil.mp hcon)

/-! ### The two outcomes of get_bootstrap_estimates -/

theorem getBootstrapEstimates_ok (rand : ℤ → List ℚ × List ℚ)
    (ambient : ℕ → List ℚ × List ℚ) (scores_a scores_b : List ℚ)
    (num_samples num_bootstrap_iterations : ℤ) (dt : ℚ) (num_jobs : ℤ)
    (seed : Option ℤ) (hswd : squaredWassersteinDist scores_a scores_b dt ≠ 0) :
    getBootstrapEstimates rand ambient scores_a scores_b num_samples
        num_bootstrap_iterations dt num_jobs seed =
      Except.ok ((computeViolationRatio scores_a scores_b dt : ℝ),
        sigmaHat rand ambient scores_a scores_b num_samples
          num_bootstrap_iterations dt seed,
        bootstrapSamples rand ambient scores_a scores_b
          num_bootstrap_iterations dt seed) := by
  unfold getBootstrapEstimates
  rw [if_neg hswd]

theorem getBootstrapEstimates_degenerate (rand : ℤ → List ℚ × List ℚ)
    (ambient : ℕ → List ℚ × List ℚ) (scores_a scores_b : List ℚ)
    (num_samples num_bootstrap_iterations : ℤ) (dt : ℚ) (num_jobs : ℤ)
    (seed : Option ℤ) (hswd : squaredWassersteinDist scores_a scores_b dt = 0) :
    getBootstrapEstimates rand ambient scores_a scores_b num_samples
        num_bootstrap_iterations dt num_jobs seed =
      Except.error "TypeError: unsupported operand types for -: list and int" := by
  unfold getBootstrapEstimates
  rw [if_pos hswd]

/-! ### Monotonicity of the quantile function -/

theorem clampedIndex_mono (n : ℕ) {p q : ℚ} (hpq : p ≤ q) :
    clampedIndex n p ≤ clampedIndex n q := by
  unfold clampedIndex
  have hc : ⌈(n : ℚ) * p⌉ ≤ ⌈(n : ℚ) * q⌉ :=
    Int.ceil_mono (mul_le_mul_of_nonneg_left hpq (Nat.cast_nonneg n))
  omega

theorem clampedIndex_one {n : ℕ} (hn : 0 < n) : clampedIndex n 1 = n - 1 := by
  unfold clampedIndex
  rw [mul_one, Int.ceil_natCast]
  omega

theorem clampedIndex_zero (n : ℕ) : clampedIndex n 0 = 0 := by
  unfold clampedIndex
  rw [mul_zero, Int.ceil_zero]
  omega

theorem quantileFunction_mono (scores : List ℚ) (hne : scores ≠ []) {p q : ℚ}
    (hpq : p ≤ q) : quantileFunction scores p ≤ quantileFunction scores q := by
  have hn : 0 < scores.length := List.length_pos.mpr hne
  rw [quantileFunction_eq_get scores p hn, quantileFunction_eq_get scores q hn]
  exact (sortedScores_sorted scores).rel_get_of_le
    (Fin.mk_le_mk.mpr (clampedIndex_mono scores.length hpq))

/-! ### Claim theorems -/

/-- Claim C4: for every non-empty sample, `get_quantile_function` sorts the
sample ascending and returns `sorted[clamp(ceil(n*p)-1, 0, n-1)]`; the
resulting function is monotonically non-decreasing in `p`, returns the sample
maximum at `p = 1` and the sample minimum at `p = 0`. -/
theorem C4_quantile_function_spec (scores : List ℚ) (hne : scores ≠ []) :
    (∀ p : ℚ, quantileFunction scores p =
        (sortedScores scores).getD (clampedIndex scores.length p) 0) ∧
    (∀ p q : ℚ, 0 ≤ p → p ≤ q → q ≤ 1 →
        quantileFunction scores p ≤ quantileFunction scores q) ∧
    (quantileFunction scores 1 ∈ scores ∧
        ∀ x ∈ scores, x ≤ quantileFunction scores 1) ∧
    (quantileFunction scores 0 ∈ scores ∧
        ∀ x ∈ scores, quantileFunction scores 0 ≤ x) := by
  have hn : 0 < scores.length := List.length_pos.mpr hne
  refine ⟨fun p => rfl,
    fun p q _ hpq _ => quantileFunction_mono scores hne hpq,
    ⟨quantileFunction_mem scores 1 hne, ?_⟩,
    ⟨quantileFunction_mem scores 0 hne, ?_⟩⟩
  · intro x hx
    rw [quantileFunction_eq_get scores 1 hn]
    obtain ⟨i, hi⟩ := List.mem_iff_get.mp ((sortedScores_perm scores).mem_iff.mpr hx)
    rw [← hi]
    apply (sortedScores_sorted scores).rel_get_of_le
    have hlen : (i : ℕ) < scores.length :=
      Nat.lt_of_lt_of_le i.isLt (le_of_eq (sortedScores_length scores))
    rw [Fin.le_def]
    show (i : ℕ) ≤ clampedIndex scores.length 1
    rw [clampedIndex_one hn]
    omega
  · intro x hx
    rw [quantileFunction_eq_get scores 0 hn]
    obtain ⟨i, hi⟩ := List.mem_iff_get.mp ((sortedScores_perm scores).mem_iff.mpr hx)
    rw [← hi]
    apply (sortedScores_sorted scores).rel_get_of_le
    rw [Fin.le_def]
    show clampedIndex scores.length 0 ≤ (i : ℕ)
    rw [clampedIndex_zero]
    omega

/-- Witness for C4 at the concrete sample `[3, 1, 2]`. -/
theorem C4_quantile_function_spec_witness :
    (([3, 1, 2] : List ℚ) ≠ []) ∧
    ((∀ p : ℚ, quantileFunction [3, 1, 2] p =
        (sortedScores [3, 1, 2]).getD (clampedIndex ([3, 1, 2] : List ℚ).length p) 0) ∧
    (∀ p q : ℚ, 0 ≤ p → p ≤ q → q ≤ 1 →
        quantileFunction [3, 1, 2] p ≤ quantileFunction [3, 1, 2] q) ∧
    (quantileFunction [3, 1, 2] 1 ∈ ([3, 1, 2] : List ℚ) ∧
        ∀ x ∈ ([3, 1, 2] : List ℚ), x ≤ quantileFunction [3, 1, 2] 1) ∧
    (quantileFunction [3, 1, 2] 0 ∈ ([3, 1, 2] : List ℚ) ∧
        ∀ x ∈ ([3, 1, 2] : List ℚ), quantileFunction [3, 1, 2] 0 ≤ x)) :=
  ⟨by simp, C4_quantile_function_spec [3, 1, 2] (by simp)⟩

/-- Claim C5: `compute_violation_ratio` never aborts; when the accumulated
squared Wasserstein distance is 0 it warns and returns 0, otherwise it
returns `int_violation_set / squared_wasserstein_dist` with no warning. -/
theorem C5_zero_wasserstein_guard (scores_a scores_b : List ℚ) (dt : ℚ)
    (hA : scores_a ≠ []) (hB : scores_b ≠ []) (hdt : 0 < dt) :
    (squaredWassersteinDist scores_a scores_b dt = 0 →
      computeViolationRatioW scores_a scores_b dt = (0, true)) ∧
    (squaredWassersteinDist scores_a scores_b dt ≠ 0 →
      computeViolationRatioW scores_a scores_b dt =
        (intViolationSet scores_a scores_b dt /
          squaredWassersteinDist scores_a scores_b dt, false)) := by
  constructor <;> intro h <;> simp [computeViolationRatioW, h]

/-- Witness for C5 at `A = [0]`, `B = [1]`, `dt = 1/2`. -/
theorem C5_zero_wasserstein_guard_witness :
    (([0] : List ℚ) ≠ [] ∧ ([1] : List ℚ) ≠ [] ∧ (0 : ℚ) < 1/2) ∧
    ((squaredWassersteinDist [0] [1] (1/2) = 0 →
      computeViolationRatioW [0] [1] (1/2) = (0, true)) ∧
    (squaredWassersteinDist [0] [1] (1/2) ≠ 0 →
      computeViolationRatioW [0] [1] (1/2) =
        (intViolationSet [0] [1] (1/2) / squaredWassersteinDist [0] [1] (1/2), false))) :=
  ⟨⟨by simp, by simp, by norm_num⟩,
    C5_zero_wasserstein_guard [0] [1] (1/2) (by simp) (by simp) (by norm_num)⟩

/-! ### Violation-ratio symmetry (C10) -/

theorem list_sum_map_add (l : List ℚ) (f g : ℚ → ℚ) :
    (l.map f).sum + (l.map g).sum = (l.map (fun x => f x + g x)).sum := by
  induction l with
  | nil => simp
  | cons h t ih => simp only [List.map_cons, List.sum_cons]; rw [← ih]; ring

theorem squaredWassersteinDist_comm (scores_a scores_b : List ℚ) (dt : ℚ) :
    squaredWassersteinDist scores_b scores_a dt =
      squaredWassersteinDist scores_a scores_b dt := by
  unfold squaredWassersteinDist
  congr 1
  apply List.map_congr_left
  intro p _
  ring

theorem intViolationSet_add_comm_eq (scores_a scores_b : List ℚ) (dt : ℚ) :
    intViolationSet scores_a scores_b dt + intViolationSet scores_b scores_a dt =
      squaredWassersteinDist scores_a scores_b dt := by
  unfold intViolationSet squaredWassersteinDist
  rw [list_sum_map_add]
  congr 1
  apply List.map_congr_left
  intro p _
  set d := quantileFunction scores_b p - quantileFunction scores_a p with hd
  have hd' : quantileFunction scores_a p - quantileFunction scores_b p = -d := by
    rw [hd]; ring
  rw [hd']
  rcases le_total d 0 with hle | hle
  · rw [max_eq_right hle, max_eq_left (neg_nonneg.mpr hle)]
    ring
  · rw [max_eq_left hle, max_eq_right (neg_nonpos.mpr hle)]
    ring

/-- Claim C10: when the accumulated squared Wasserstein distance on the grid is
nonzero, `compute_violation_ratio(A, B, dt) + compute_violation_ratio(B, A, dt) = 1`
in exact arithmetic, because `max(d,0)^2 + max(-d,0)^2 = d^2` at every grid point. -/
theorem C10_violation_ratio_complement (scores_a scores_b : List ℚ) (dt : ℚ)
    (hA : scores_a ≠ []) (hB : scores_b ≠ []) (hdt : 0 < dt)
    (h : squaredWassersteinDist scores_a scores_b dt ≠ 0) :
    computeViolationRatio scores_a scores_b dt +
      computeViolationRatio scores_b scores_a dt = 1 := by
  have h' : squaredWassersteinDist scores_b scores_a dt ≠ 0 := by
    rw [squaredWassersteinDist_comm]; exact h
  unfold computeViolationRatio computeViolationRatioW
  rw [if_neg h, if_neg h']
  simp only
  rw [squaredWassersteinDist_comm scores_a scores_b dt, div_add_div_same,
    intViolationSet_add_comm_eq, div_self h]

/-- Witness for C10 at `A = [0]`, `B = [1]`, `dt = 1/2` (nonzero distance). -/
theorem C10_violation_ratio_complement_witness :
    (([0] : List ℚ) ≠ [] ∧ ([1] : List ℚ) ≠ [] ∧ (0 : ℚ) < 1/2 ∧
      squaredWassersteinDist [0] [1] (1/2) ≠ 0) ∧
    computeViolationRatio [0] [1] (1/2) + computeViolationRatio [1] [0] (1/2) = 1 := by
  have hswd : squaredWassersteinDist [0] [1] (1/2) = 1 := by
    have hgrid : arangeGrid (1/2) = [0, 1/2] := by
      unfold arangeGrid
      rw [show ((1 : ℚ) / (1/2)) = ((2 : ℤ) : ℚ) by norm_num, Int.ceil_intCast]
      simp [List.range_succ]
    have hq0 : ∀ p : ℚ, quantileFunction [0] p = 0 :=
      fun p => quantileFunction_const (by simp) (by simp) p
    have hq1 : ∀ p : ℚ, quantileFunction [1] p = 1 :=
      fun p => quantileFunction_const (by simp) (by simp) p
    unfold squaredWassersteinDist
    rw [hgrid]
    simp [hq0, hq1]
    norm_num
  refine ⟨⟨by simp, by simp, by norm_num, by rw [hswd]; norm_num⟩, ?_⟩
  exact C10_violation_ratio_complement [0] [1] (1/2) (by simp) (by simp)
    (by norm_num) (by rw [hswd]; norm_num)

/-! ### aso and its validation (C1, C8) -/

theorem aso_eq_ok_of_valid (phiInv : ℝ → ℝ) (rand : ℤ → List ℚ × List ℚ)
    (ambient : ℕ → List ℚ × List ℚ) {scores_a scores_b : List ℚ}
    (confidence_level : ℝ) {num_samples num_bootstrap_iterations : ℤ} (dt : ℚ)
    {num_jobs : ℤ} (seed : Option ℤ)
    (hane : scores_a ≠ []) (hbne : scores_b ≠ [])
    (hns : 0 < num_samples) (hit : 0 < num_bootstrap_iterations) (hj : 1 ≤ num_jobs)
    (hswd : squaredWassersteinDist scores_a scores_b dt ≠ 0) :
    aso phiInv rand ambient scores_a scores_b confidence_level num_samples
        num_bootstrap_iterations dt num_jobs seed =
      Except.ok (asoValue phiInv scores_a scores_b confidence_level
        ((computeViolationRatio scores_a scores_b dt : ℝ),
         sigmaHat rand ambient scores_a scores_b num_samples
           num_bootstrap_iterations dt seed,
         bootstrapSamples rand ambient scores_a scores_b
           num_bootstrap_iterations dt seed)) := by
  unfold aso
  rw [if_neg, if_neg (by omega), if_neg (by omega), if_neg (by omega),
    getBootstrapEstimates_ok rand ambient scores_a scores_b num_samples
      num_bootstrap_iterations dt num_jobs seed hswd]
  · rfl
  · push_neg
    constructor <;> simp [List.length_eq_zero, hane, hbne]

theorem aso_eq_error_of_degenerate (phiInv : ℝ → ℝ) (rand : ℤ → List ℚ × List ℚ)
    (ambient : ℕ → List ℚ × List ℚ) {scores_a scores_b : List ℚ}
    (confidence_level : ℝ) {num_samples num_bootstrap_iterations : ℤ} (dt : ℚ)
    {num_jobs : ℤ} (seed : Option ℤ)
    (hane : scores_a ≠ []) (hbne : scores_b ≠ [])
    (hns : 0 < num_samples) (hit : 0 < num_bootstrap_iterations) (hj : 1 ≤ num_jobs)
    (hswd : squaredWassersteinDist scores_a scores_b dt = 0) :
    aso phiInv rand ambient scores_a scores_b confidence_level num_samples
        num_bootstrap_iterations dt num_jobs seed =
      Except.error "TypeError: unsupported operand types for -: list and int" := by
  unfold aso
  rw [if_neg, if_neg (by omega), if_neg (by omega), if_neg (by omega),
    getBootstrapEstimates_degenerate rand ambient scores_a scores_b num_samples
      num_bootstrap_iterations dt num_jobs seed hswd]
  · rfl
  · push_neg
    constructor <;> simp [List.length_eq_zero, hane, hbne]

/-- Counterexample to claim C1 as stated: at the perfectly valid input
`scores_a = scores_b = [1]` (with `dt = 1/2` and positive count parameters)
the baseline squared Wasserstein distance is 0, so `compute_violation_ratio`
returns the Python int 0 and `np.std(const2 * (samples - violation_ratio))`
raises `TypeError` — `aso` aborts instead of returning the clamped value in
`[0, 1]` that the claim asserts for all non-empty inputs. -/
theorem C1_aso_degenerate_counterexample :
    squaredWassersteinDist [1] [1] (1/2) = 0 ∧
    aso wPhiInv wRand wAmbient [1] [1] (1/2) 1 1 (1/2) 1 none =
      Except.error "TypeError: unsupported operand types for -: list and int" :=
  ⟨squaredWassersteinDist_self [1] (1/2),
    aso_eq_error_of_degenerate wPhiInv wRand wAmbient (1/2) (1/2) none
      (by simp) (by simp) (by norm_num) (by norm_num) (by norm_num)
      (squaredWassersteinDist_self [1] (1/2))⟩

/-- Claim C1 (amended): for valid inputs, whenever the baseline squared
Wasserstein distance on the dt-grid is nonzero, `aso` returns
`clamp(violation_ratio - (1/const1) * sigma_hat * ppf(confidence_level), 0, 1)`
with `const1 = sqrt(|A|*|B|/(|A|+|B|))`, a value that always lies in `[0, 1]`;
when that distance is zero, the degenerate baseline ratio is the Python int 0
and `aso` raises a `TypeError` inside `get_bootstrap_estimates` instead of
returning. -/
theorem C1_aso_epsilon_min (phiInv : ℝ → ℝ) (rand : ℤ → List ℚ × List ℚ)
    (ambient : ℕ → List ℚ × List ℚ) (scores_a scores_b : List ℚ)
    (confidence_level : ℝ) (num_samples num_bootstrap_iterations : ℤ) (dt : ℚ)
    (num_jobs : ℤ) (seed : Option ℤ)
    (hA : scores_a ≠ []) (hB : scores_b ≠ []) (hns : 0 < num_samples)
    (hit : 0 < num_bootstrap_iterations) (hj : 1 ≤ num_jobs)
    (hcl : 0 < confidence_level ∧ confidence_level ≤ 1) :
    (squaredWassersteinDist scores_a scores_b dt ≠ 0 →
      aso phiInv rand ambient scores_a scores_b confidence_level num_samples
          num_bootstrap_iterations dt num_jobs seed =
        Except.ok (min (max
        (((computeViolationRatio scores_a scores_b dt : ℚ) : ℝ) -
          (1 / Real.sqrt (((scores_a.length : ℝ) * (scores_b.length : ℝ)) /
            ((scores_a.length : ℝ) + (scores_b.length : ℝ)))) *
          sigmaHat rand ambient scores_a scores_b num_samples
            num_bootstrap_iterations dt seed *
          phiInv confidence_level) 0) 1) ∧
      0 ≤ min (max
        (((computeViolationRatio scores_a scores_b dt : ℚ) : ℝ) -
          (1 / Real.sqrt (((scores_a.length : ℝ) * (scores_b.length : ℝ)) /
            ((scores_a.length : ℝ) + (scores_b.length : ℝ)))) *
          sigmaHat rand ambient scores_a scores_b num_samples
            num_bootstrap_iterations dt seed *
          phiInv confidence_level) 0) 1 ∧
      min (max
        (((computeViolationRatio scores_a scores_b dt : ℚ) : ℝ) -
          (1 / Real.sqrt (((scores_a.length : ℝ) * (scores_b.length : ℝ)) /
            ((scores_a.length : ℝ) + (scores_b.length : ℝ)))) *
          sigmaHat rand ambient scores_a scores_b num_samples
            num_bootstrap_iterations dt seed *
          phiInv confidence_level) 0) 1 ≤ 1) ∧
    (squaredWassersteinDist scores_a scores_b dt = 0 →
      aso phiInv rand ambient scores_a scores_b confidence_level num_samples
          num_bootstrap_iterations dt num_jobs seed =
        Except.error "TypeError: unsupported operand types for -: list and int") := by
  constructor
  · intro hswd
    refine ⟨?_, le_min (le_max_right _ _) zero_le_one, min_le_right _ _⟩
    rw [aso_eq_ok_of_valid phiInv rand ambient confidence_level dt seed hA hB
      hns hit hj hswd]
    rfl
  · intro hswd
    exact aso_eq_error_of_degenerate phiInv rand ambient confidence_level dt
      seed hA hB hns hit hj hswd

/-- Witness for (amended) C1 at the concrete valid input `A = [0]`, `B = [1]`,
`dt = 1/2` (nonzero baseline distance). -/
theorem C1_aso_epsilon_min_witness :
    (([0] : List ℚ) ≠ [] ∧ ([1] : List ℚ) ≠ [] ∧ (0 : ℤ) < 1 ∧ (0 : ℤ) < 1 ∧
      (1 : ℤ) ≤ 1 ∧ ((0 : ℝ) < 1/2 ∧ (1/2 : ℝ) ≤ 1)) ∧
    ((squaredWassersteinDist [0] [1] (1/2) ≠ 0 →
      aso wPhiInv wRand wAmbient [0] [1] (1/2) 1 1 (1/2) 1 none =
        Except.ok (min (max
        (((computeViolationRatio [0] [1] (1/2) : ℚ) : ℝ) -
          (1 / Real.sqrt (((([0] : List ℚ).length : ℝ) * (([1] : List ℚ).length : ℝ)) /
            ((([0] : List ℚ).length : ℝ) + (([1] : List ℚ).length : ℝ)))) *
          sigmaHat wRand wAmbient [0] [1] 1 1 (1/2) none *
          wPhiInv (1/2)) 0) 1) ∧
      0 ≤ min (max
        (((computeViolationRatio [0] [1] (1/2) : ℚ) : ℝ) -
          (1 / Real.sqrt (((([0] : List ℚ).length : ℝ) * (([1] : List ℚ).length : ℝ)) /
            ((([0] : List ℚ).length : ℝ) + (([1] : List ℚ).length : ℝ)))) *
          sigmaHat wRand wAmbient [0] [1] 1 1 (1/2) none *
          wPhiInv (1/2)) 0) 1 ∧
      min (max
        (((computeViolationRatio [0] [1] (1/2) : ℚ) : ℝ) -
          (1 / Real.sqrt (((([0] : List ℚ).length : ℝ) * (([1] : List ℚ).length : ℝ)) /
            ((([0] : List ℚ).length : ℝ) + (([1] : List ℚ).length : ℝ)))) *
          sigmaHat wRand wAmbient [0] [1] 1 1 (1/2) none *
          wPhiInv (1/2)) 0) 1 ≤ 1) ∧
    (squaredWassersteinDist [0] [1] (1/2) = 0 →
      aso wPhiInv wRand wAmbient [0] [1] (1/2) 1 1 (1/2) 1 none =
        Except.error "TypeError: unsupported operand types for -: list and int")) :=
  ⟨⟨by simp, by simp, by norm_num, by norm_num, by norm_num, by norm_num, by norm_num⟩,
    C1_aso_epsilon_min wPhiInv wRand wAmbient [0] [1] (1/2) 1 1 (1/2) 1 none
      (by simp) (by simp) (by norm_num) (by norm_num) (by norm_num)
      ⟨by norm_num, by norm_num⟩⟩

/-- Claim C8: on any invalid input (`empty sample, non-positive count, or
num_jobs < 1`) `aso` fails with a validation error, and the result does not
depend on the random sources or the normal inverse CDF, i.e. no bootstrap
work is consulted. -/
theorem C8_validation_fail_fast (phiInv : ℝ → ℝ) (rand : ℤ → List ℚ × List ℚ)
    (ambient : ℕ → List ℚ × List ℚ) (scores_a scores_b : List ℚ)
    (confidence_level : ℝ) (num_samples num_bootstrap_iterations : ℤ) (dt : ℚ)
    (num_jobs : ℤ) (seed : Option ℤ)
    (h : scores_a = [] ∨ scores_b = [] ∨ num_samples ≤ 0 ∨
      num_bootstrap_iterations ≤ 0 ∨ num_jobs < 1) :
    (∃ msg, aso phiInv rand ambient scores_a scores_b confidence_level
        num_samples num_bootstrap_iterations dt num_jobs seed = Except.error msg) ∧
    (∀ (phiInv' : ℝ → ℝ) (rand' : ℤ → List ℚ × List ℚ)
        (ambient' : ℕ → List ℚ × List ℚ),
      aso phiInv rand ambient scores_a scores_b confidence_level num_samples
          num_bootstrap_iterations dt num_jobs seed =
        aso phiInv' rand' ambient' scores_a scores_b confidence_level num_samples
          num_bootstrap_iterations dt num_jobs seed) := by
  unfold aso
  by_cases h1 : scores_a.length = 0 ∨ scores_b.length = 0
  · rw [if_pos h1]
    exact ⟨⟨_, rfl⟩, fun _ _ _ => by rw [if_pos h1]⟩
  · rw [if_neg h1]
    by_cases h2 : num_samples ≤ 0
    · rw [if_pos h2]
      exact ⟨⟨_, rfl⟩, fun _ _ _ => by rw [if_neg h1, if_pos h2]⟩
    · rw [if_neg h2]
      by_cases h3 : num_bootstrap_iterations ≤ 0
      · rw [if_pos h3]
        exact ⟨⟨_, rfl⟩, fun _ _ _ => by rw [if_neg h1, if_neg h2, if_pos h3]⟩
      · rw [if_neg h3]
        by_cases h4 : num_jobs ≤ 0
        · rw [if_pos h4]
          exact ⟨⟨_, rfl⟩, fun _ _ _ => by rw [if_neg h1, if_neg h2, if_neg h3, if_pos h4]⟩
        · exfalso
          push_neg at h1
          rcases h with rfl | rfl | hb | hb | hb
          · exact h1.1 rfl
          · exact h1.2 rfl
          · exact h2 hb
          · exact h3 hb
          · exact h4 (by omega)

/-- Witness for C8 at the invalid input `scores_a = []`. -/
theorem C8_validation_fail_fast_witness :
    (([] : List ℚ) = [] ∨ ([1] : List ℚ) = [] ∨ (1 : ℤ) ≤ 0 ∨ (1 : ℤ) ≤ 0 ∨
      (1 : ℤ) < 1) ∧
    ((∃ msg, aso (fun _ => 0) (fun _ => ([], [])) (fun _ => ([], [])) [] [1] (1/2)
        1 1 (1/2) 1 none = Except.error msg) ∧
    (∀ (phiInv' : ℝ → ℝ) (rand' : ℤ → List ℚ × List ℚ)
        (ambient' : ℕ → List ℚ × List ℚ),
      aso (fun _ => 0) (fun _ => ([], [])) (fun _ => ([], [])) [] [1] (1/2) 1 1
          (1/2) 1 none =
        aso phiInv' rand' ambient' [] [1] (1/2) 1 1 (1/2) 1 none)) :=
  ⟨Or.inl rfl,
    C8_validation_fail_fast (fun _ => 0) (fun _ => ([], [])) (fun _ => ([], []))
      [] [1] (1/2) 1 1 (1/2) 1 none (Or.inl rfl)⟩

/-! ### Seeded determinism of the bootstrap (C3) -/

theorem bootstrapSamples_seeded (rand : ℤ → List ℚ × List ℚ)
    (ambient : ℕ → List ℚ × List ℚ) (scores_a scores_b : List ℚ)
    (num_bootstrap_iterations : ℤ) (dt : ℚ) (s : ℤ) :
    bootstrapSamples rand ambient scores_a scores_b num_bootstrap_iterations dt
        (some s) =
      (List.range num_bootstrap_iterations.toNat).map
        (fun (k : ℕ) => bootstrapIter scores_a scores_b dt (rand (s + k + 1))) := rfl

/-- Claim C3: with a non-`None` seed, the bootstrap samples (and hence
`sigma_hat`) are a function of the seed alone — independent of `num_jobs` and
of the ambient (scheduling-dependent) random stream — and iteration `k` uses
the derived seed `seed + k + 1`. -/
theorem C3_seeded_bootstrap_deterministic (rand : ℤ → List ℚ × List ℚ)
    (ambient ambient' : ℕ → List ℚ × List ℚ) (scores_a scores_b : List ℚ)
    (num_samples num_bootstrap_iterations : ℤ) (dt : ℚ)
    (num_jobs num_jobs' : ℤ) (s : ℤ) :
    getBootstrapEstimates rand ambient scores_a scores_b num_samples
        num_bootstrap_iterations dt num_jobs (some s) =
      getBootstrapEstimates rand ambient' scores_a scores_b num_samples
        num_bootstrap_iterations dt num_jobs' (some s) ∧
    bootstrapSamples rand ambient scores_a scores_b num_bootstrap_iterations dt
        (some s) =
      (List.range num_bootstrap_iterations.toNat).map
        (fun (k : ℕ) => bootstrapIter scores_a scores_b dt (rand (s + k + 1))) := by
  constructor
  · unfold getBootstrapEstimates sigmaHat
    rw [bootstrapSamples_seeded rand ambient, bootstrapSamples_seeded rand ambient']
  · exact bootstrapSamples_seeded rand ambient scores_a scores_b
      num_bootstrap_iterations dt s

/-! ### The fully separated scenario (C6) -/

/-- Counterexample to claim C6 as stated: for `A = [10]*100`, `B = [0]*100`
and `dt = 1/2`, `compute_violation_ratio` returns 0, not 1 (every quantile of
B lies below every quantile of A, so the violation set is empty). -/
theorem C6_separated_counterexample :
    computeViolationRatio (List.replicate 100 10) (List.replicate 100 0) (1/2) = 0 ∧
    computeViolationRatio (List.replicate 100 10) (List.replicate 100 0) (1/2) ≠ 1 := by
  have h0 : computeViolationRatio (List.replicate 100 10) (List.replicate 100 0) (1/2) = 0 := by
    apply computeViolationRatio_eq_zero_of_dominated
    intro p
    have hb : quantileFunction (List.replicate 100 (0 : ℚ)) p ≤ 0 :=
      quantileFunction_nonpos (fun x hx => le_of_eq (List.eq_of_mem_replicate hx)) p
    have ha : (0 : ℚ) ≤ quantileFunction (List.replicate 100 (10 : ℚ)) p :=
      quantileFunction_nonneg
        (fun x hx => by rw [List.eq_of_mem_replicate hx]; norm_num) p
    exact le_trans hb ha
  exact ⟨h0, by rw [h0]; norm_num⟩

/-- Claim C6 (amended): for `A = [10]*100`, `B = [0]*100` and any `dt > 0`,
the violation ratio is exactly 0 (A fully dominates B), `sigma_hat = 0`, and
`aso` returns `epsilon_min = 0` for every confidence level in `(0, 1]`. -/
theorem C6_separated_samples (phiInv : ℝ → ℝ) (rand : ℤ → List ℚ × List ℚ)
    (ambient : ℕ → List ℚ × List ℚ) (confidence_level : ℝ)
    (num_samples num_bootstrap_iterations : ℤ) (dt : ℚ) (num_jobs : ℤ)
    (seed : Option ℤ) (hdt : 0 < dt)
    (hcl : 0 < confidence_level ∧ confidence_level ≤ 1)
    (hns : 0 < num_samples) (hit : 0 < num_bootstrap_iterations)
    (hj : 1 ≤ num_jobs) :
    computeViolationRatio (List.replicate 100 10) (List.replicate 100 0) dt = 0 ∧
    getBootstrapEstimates rand ambient (List.replicate 100 10)
        (List.replicate 100 0) num_samples num_bootstrap_iterations dt num_jobs
        seed =
      Except.ok (0, 0, bootstrapSamples rand ambient (List.replicate 100 10)
        (List.replicate 100 0) num_bootstrap_iterations dt seed) ∧
    aso phiInv rand ambient (List.replicate 100 10) (List.replicate 100 0)
        confidence_level num_samples num_bootstrap_iterations dt num_jobs seed =
      Except.ok 0 := by
  have hA : ∀ x ∈ List.replicate 100 (10 : ℚ), 0 ≤ x := fun x hx => by
    rw [List.eq_of_mem_replicate hx]; norm_num
  have hB : ∀ x ∈ List.replicate 100 (0 : ℚ), x ≤ 0 := fun x hx =>
    le_of_eq (List.eq_of_mem_replicate hx)
  have hswd : squaredWassersteinDist (List.replicate 100 10)
      (List.replicate 100 0) dt ≠ 0 :=
    (squaredWassersteinDist_pos_of_consts
      (fun x hx => List.eq_of_mem_replicate hx)
      (fun x hx => List.eq_of_mem_replicate hx)
      (by simp) (by simp) (by norm_num) hdt).ne'
  refine ⟨?_, ?_, ?_⟩
  · exact computeViolationRatio_eq_zero_of_dominated (fun p =>
      le_trans (quantileFunction_nonpos hB p) (quantileFunction_nonneg hA p))
  · exact getBootstrapEstimates_of_signs rand ambient num_samples
      num_bootstrap_iterations dt num_jobs seed hA hB hswd
  · exact aso_of_signs phiInv rand ambient confidence_level dt seed hA hB
      (by simp) (by simp) hns hit hj hswd

/-- Witness for (amended) C6 at `dt = 1/2`, `confidence_level = 1/2`. -/
theorem C6_separated_samples_witness :
    ((0 : ℚ) < 1/2 ∧ ((0 : ℝ) < 1/2 ∧ (1/2 : ℝ) ≤ 1) ∧ (0 : ℤ) < 1 ∧
      (0 : ℤ) < 1 ∧ (1 : ℤ) ≤ 1) ∧
    (computeViolationRatio (List.replicate 100 10) (List.replicate 100 0) (1/2) = 0 ∧
    getBootstrapEstimates (fun _ => ([], [])) (fun _ => ([], []))
        (List.replicate 100 10) (List.replicate 100 0) 1 1 (1/2) 1 none =
      Except.ok (0, 0, bootstrapSamples (fun _ => ([], [])) (fun _ => ([], []))
        (List.replicate 100 10) (List.replicate 100 0) 1 (1/2) none) ∧
    aso (fun _ => 0) (fun _ => ([], [])) (fun _ => ([], []))
        (List.replicate 100 10) (List.replicate 100 0) (1/2) 1 1 (1/2) 1 none =
      Except.ok 0) :=
  ⟨⟨by norm_num, ⟨by norm_num, by norm_num⟩, by norm_num, by norm_num, by norm_num⟩,
    C6_separated_samples (fun _ => 0) (fun _ => ([], [])) (fun _ => ([], []))
      (1/2) 1 1 (1/2) 1 none (by norm_num) ⟨by norm_num, by norm_num⟩
      (by norm_num) (by norm_num) (by norm_num)⟩

/-! ### multi_aso at two fully separated models (C2, C7) -/

theorem multiAso_two_models (phiInv : ℝ → ℝ) (rand : ℤ → List ℚ × List ℚ)
    (ambient : ℕ → List ℚ × List ℚ) (confidence_level : ℝ) {dt : ℚ}
    (hdt : 0 < dt) (seed : Option ℤ) :
    multiAso phiInv rand ambient [[10], [0]] confidence_level true true 1 1 dt
        1 seed =
      Except.ok (matUpdate (matUpdate (eyeMatrix 2) 0 0 0) 0 0 0) := by
  have hA : ∀ x ∈ ([10] : List ℚ), 0 ≤ x := by intro x hx; simp at hx; rw [hx]; norm_num
  have hB : ∀ x ∈ ([0] : List ℚ), x ≤ 0 := by intro x hx; simp at hx; rw [hx]
  have hswd : squaredWassersteinDist [10] [0] dt ≠ 0 :=
    (squaredWassersteinDist_pos_of_consts
      (fun x hx => by simpa using hx) (fun x hx => by simpa using hx)
      (by simp) (by simp) (by norm_num) hdt).ne'
  have haso : aso phiInv rand ambient [10] [0]
      (confidence_level / ((((2 : ℕ) : ℝ)) * (((2 : ℕ) : ℝ) - 1) / 2)) 1 1 dt 1 seed =
      Except.ok 0 :=
    aso_of_signs phiInv rand ambient _ dt seed hA hB (by simp) (by simp)
      (by norm_num) (by norm_num) (by norm_num) hswd
  have hpairs : ((List.range 2).flatMap
      (fun i => (List.range (2 - (i + 1))).map (fun j => (i, j)))) = [(0, 0)] := rfl
  unfold multiAso
  simp only [List.length_cons, List.length_nil, Nat.zero_add, Nat.reduceAdd,
    eq_self_iff_true, if_true, hpairs]
  rw [List.foldlM_cons]
  simp only [List.foldlM_nil, bind_pure]
  unfold multiAsoStep
  simp only []
  rw [show ([[10], [0]] : List (List ℚ)).getD 0 [] = [10] from rfl,
    show ([[10], [0]] : List (List ℚ)).getD (0 + 1 + 0) [] = [0] from rfl]
  rw [haso]
  rfl

/-- Claim C7 (code bug): for the two fully separated models `[[10], [0]]` the
matrix returned by `multi_aso` has `M[0][0] = 0`, not 1: the inner loop
enumerates `indices[(i+1):]` from `j = 0`, so the result of the pair `(0, 1)`
is written onto the diagonal cell `(0, 0)`, overwriting the `np.eye`
initialisation. -/
theorem C7_diagonal_overwritten :
    ∃ M : ℕ → ℕ → ℝ,
      multiAso (fun _ => 0) (fun _ => ([], [])) (fun _ => ([], [])) [[10], [0]]
          (1/2) true true 1 1 (1/2) 1 none = Except.ok M ∧
      M 0 0 = 0 ∧ M 0 0 ≠ 1 ∧ M 1 1 = 1 := by
  refine ⟨matUpdate (matUpdate (eyeMatrix 2) 0 0 0) 0 0 0,
    multiAso_two_models (fun _ => 0) (fun _ => ([], [])) (fun _ => ([], []))
      (1/2) (by norm_num) none, ?_, ?_, ?_⟩
  · rfl
  · show (0 : ℝ) ≠ 1
    norm_num
  · show (if ((1 : ℕ) = 0 ∧ (1 : ℕ) = 0) then (0 : ℝ)
      else if ((1 : ℕ) = 0 ∧ (1 : ℕ) = 0) then (0 : ℝ)
      else eyeMatrix 2 1 1) = 1
    norm_num [eyeMatrix]

/-- Claim C2 (code bug): with `use_symmetry=True` the code executes
`eps_min[j, i] = eps_min[i, j]` — a plain copy, not `1 − eps_min[i, j]` — and
uses the relative inner index `j` instead of `i + 1 + j`, so for the two
models `[[10], [0]]` the returned matrix has `M[0][1] + M[1][0] = 0 ≠ 1`. -/
theorem C2_symmetry_sum_broken :
    ∃ M : ℕ → ℕ → ℝ,
      multiAso (fun _ => 0) (fun _ => ([], [])) (fun _ => ([], [])) [[10], [0]]
          (1/2) true true 1 1 (1/2) 1 none = Except.ok M ∧
      M 0 1 + M 1 0 = 0 ∧ M 0 1 + M 1 0 ≠ 1 := by
  refine ⟨matUpdate (matUpdate (eyeMatrix 2) 0 0 0) 0 0 0,
    multiAso_two_models (fun _ => 0) (fun _ => ([], [])) (fun _ => ([], []))
      (1/2) (by norm_num) none, ?_, ?_⟩
  · show (if ((0 : ℕ) = 0 ∧ (1 : ℕ) = 0) then (0 : ℝ)
        else if ((0 : ℕ) = 0 ∧ (1 : ℕ) = 0) then (0 : ℝ) else eyeMatrix 2 0 1) +
      (if ((1 : ℕ) = 0 ∧ (0 : ℕ) = 0) then (0 : ℝ)
        else if ((1 : ℕ) = 0 ∧ (0 : ℕ) = 0) then (0 : ℝ) else eyeMatrix 2 1 0) = 0
    norm_num [eyeMatrix]
  · show (if ((0 : ℕ) = 0 ∧ (1 : ℕ) = 0) then (0 : ℝ)
        else if ((0 : ℕ) = 0 ∧ (1 : ℕ) = 0) then (0 : ℝ) else eyeMatrix 2 0 1) +
      (if ((1 : ℕ) = 0 ∧ (0 : ℕ) = 0) then (0 : ℝ)
        else if ((1 : ℕ) = 0 ∧ (0 : ℕ) = 0) then (0 : ℝ) else eyeMatrix 2 1 0) ≠ 1
    norm_num [eyeMatrix]

/-! ### The Bayes factor computation (C9) -/

theorem bf_aso_eq_ok_of_valid (erf : ℝ → ℝ) (rand : ℤ → List ℚ × List ℚ)
    (ambient : ℕ → List ℚ × List ℚ) {scores_a scores_b : List ℚ}
    (eps_min_threshold prior_loc prior_scale prior_alpha prior_beta : ℝ)
    {num_bootstrap_samples num_bootstrap_iterations : ℤ} (dt : ℚ) {num_jobs : ℤ}
    (hane : scores_a ≠ []) (hbne : scores_b ≠ [])
    (hns : 0 < num_bootstrap_samples) (hit : 0 < num_bootstrap_iterations)
    (hj : 1 ≤ num_jobs)
    (hswd : squaredWassersteinDist scores_a scores_b dt ≠ 0) :
    bf_aso erf rand ambient scores_a scores_b eps_min_threshold prior_loc
        prior_scale prior_alpha prior_beta num_bootstrap_samples
        num_bootstrap_iterations dt num_jobs =
      Except.ok (Real.exp (Real.log
        ((1 - (bfCdfs erf scores_a scores_b eps_min_threshold
        prior_loc prior_scale prior_alpha prior_beta
        ((computeViolationRatio scores_a scores_b dt : ℝ),
        sigmaHat rand ambient scores_a scores_b num_bootstrap_samples
          num_bootstrap_iterations dt none,
        bootstrapSamples rand ambient scores_a scores_b
          num_bootstrap_iterations dt none)).1) *
      (bfCdfs erf scores_a scores_b eps_min_threshold
        prior_loc prior_scale prior_alpha prior_beta
        ((computeViolationRatio scores_a scores_b dt : ℝ),
        sigmaHat rand ambient scores_a scores_b num_bootstrap_samples
          num_bootstrap_iterations dt none,
        bootstrapSamples rand ambient scores_a scores_b
          num_bootstrap_iterations dt none)).2 + 1/1000000) -
        Real.log
        ((bfCdfs erf scores_a scores_b eps_min_threshold
        prior_loc prior_scale prior_alpha prior_beta
        ((computeViolationRatio scores_a scores_b dt : ℝ),
        sigmaHat rand ambient scores_a scores_b num_bootstrap_samples
          num_bootstrap_iterations dt none,
        bootstrapSamples rand ambient scores_a scores_b
          num_bootstrap_iterations dt none)).1 *
      (1 - (bfCdfs erf scores_a scores_b eps_min_threshold
        prior_loc prior_scale prior_alpha prior_beta
        ((computeViolationRatio scores_a scores_b dt : ℝ),
        sigmaHat rand ambient scores_a scores_b num_bootstrap_samples
          num_bootstrap_iterations dt none,
        bootstrapSamples rand ambient scores_a scores_b
          num_bootstrap_iterations dt none)).2) + 1/1000000))) := by
  unfold bf_aso
  rw [if_neg, if_neg (by omega), if_neg (by omega), if_neg (by omega),
    getBootstrapEstimates_ok rand ambient scores_a scores_b
      num_bootstrap_samples num_bootstrap_iterations dt num_jobs none hswd]
  · rfl
  · push_neg
    constructor <;> simp [List.length_eq_zero, hane, hbne]

theorem bf_aso_eq_error_of_degenerate (erf : ℝ → ℝ) (rand : ℤ → List ℚ × List ℚ)
    (ambient : ℕ → List ℚ × List ℚ) {scores_a scores_b : List ℚ}
    (eps_min_threshold prior_loc prior_scale prior_alpha prior_beta : ℝ)
    {num_bootstrap_samples num_bootstrap_iterations : ℤ} (dt : ℚ) {num_jobs : ℤ}
    (hane : scores_a ≠ []) (hbne : scores_b ≠ [])
    (hns : 0 < num_bootstrap_samples) (hit : 0 < num_bootstrap_iterations)
    (hj : 1 ≤ num_jobs)
    (hswd : squaredWassersteinDist scores_a scores_b dt = 0) :
    bf_aso erf rand ambient scores_a scores_b eps_min_threshold prior_loc
        prior_scale prior_alpha prior_beta num_bootstrap_samples
        num_bootstrap_iterations dt num_jobs =
      Except.error "TypeError: unsupported operand types for -: list and int" := by
  unfold bf_aso
  rw [if_neg, if_neg (by omega), if_neg (by omega), if_neg (by omega),
    getBootstrapEstimates_degenerate rand ambient scores_a scores_b
      num_bootstrap_samples num_bootstrap_iterations dt num_jobs none hswd]
  · rfl
  · push_neg
    constructor <;> simp [List.length_eq_zero, hane, hbne]

/-- Counterexample to claim C9 as stated: at the perfectly valid input
`scores_a = scores_b = [1]` the baseline squared Wasserstein distance is 0,
so `bf_aso` raises a `TypeError` inside `get_bootstrap_estimates` instead of
returning the Bayes factor the claim describes. -/
theorem C9_bf_aso_degenerate_counterexample :
    squaredWassersteinDist [1] [1] (1/2) = 0 ∧
    bf_aso wErf wRand wAmbient [1] [1] (1/2) (1/2) 1 1 0 1 1 (1/2) 1 =
      Except.error "TypeError: unsupported operand types for -: list and int" :=
  ⟨squaredWassersteinDist_self [1] (1/2),
    bf_aso_eq_error_of_degenerate wErf wRand wAmbient (1/2) (1/2) 1 1 0 (1/2)
      (by simp) (by simp) (by norm_num) (by norm_num) (by norm_num)
      (squaredWassersteinDist_self [1] (1/2))⟩

/-- Claim C9 (amended): for valid inputs whose baseline squared Wasserstein
distance on the dt-grid is nonzero, `bf_aso` returns
`BF_01 = [(1 - CDF_post) * CDF_prior + eps] / [CDF_post * (1 - CDF_prior) + eps]`
with `eps = 1e-6`, computed as the log-domain subtraction
`exp(log(numerator + eps) - log(denominator + eps))` — the division form
holding whenever the two guarded operands are positive; when that distance is
zero, `bf_aso` raises a `TypeError` inside `get_bootstrap_estimates` instead
of returning. -/
theorem C9_bf_aso_savage_dickey (erf : ℝ → ℝ) (rand : ℤ → List ℚ × List ℚ)
    (ambient : ℕ → List ℚ × List ℚ) (scores_a scores_b : List ℚ)
    (eps_min_threshold prior_loc prior_scale prior_alpha prior_beta : ℝ)
    (num_bootstrap_samples num_bootstrap_iterations : ℤ) (dt : ℚ) (num_jobs : ℤ)
    (hA : scores_a ≠ []) (hB : scores_b ≠ [])
    (hns : 0 < num_bootstrap_samples) (hit : 0 < num_bootstrap_iterations)
    (hj : 1 ≤ num_jobs)
    (hnum : 0 < (1 - (bfCdfs erf scores_a scores_b eps_min_threshold
        prior_loc prior_scale prior_alpha prior_beta
        ((computeViolationRatio scores_a scores_b dt : ℝ),
        sigmaHat rand ambient scores_a scores_b num_bootstrap_samples
          num_bootstrap_iterations dt none,
        bootstrapSamples rand ambient scores_a scores_b
          num_bootstrap_iterations dt none)).1) *
      (bfCdfs erf scores_a scores_b eps_min_threshold
        prior_loc prior_scale prior_alpha prior_beta
        ((computeViolationRatio scores_a scores_b dt : ℝ),
        sigmaHat rand ambient scores_a scores_b num_bootstrap_samples
          num_bootstrap_iterations dt none,
        bootstrapSamples rand ambient scores_a scores_b
          num_bootstrap_iterations dt none)).2 + 1/1000000)
    (hden : 0 < (bfCdfs erf scores_a scores_b eps_min_threshold
        prior_loc prior_scale prior_alpha prior_beta
        ((computeViolationRatio scores_a scores_b dt : ℝ),
        sigmaHat rand ambient scores_a scores_b num_bootstrap_samples
          num_bootstrap_iterations dt none,
        bootstrapSamples rand ambient scores_a scores_b
          num_bootstrap_iterations dt none)).1 *
      (1 - (bfCdfs erf scores_a scores_b eps_min_threshold
        prior_loc prior_scale prior_alpha prior_beta
        ((computeViolationRatio scores_a scores_b dt : ℝ),
        sigmaHat rand ambient scores_a scores_b num_bootstrap_samples
          num_bootstrap_iterations dt none,
        bootstrapSamples rand ambient scores_a scores_b
          num_bootstrap_iterations dt none)).2) + 1/1000000) :
    (squaredWassersteinDist scores_a scores_b dt ≠ 0 →
      bf_aso erf rand ambient scores_a scores_b eps_min_threshold prior_loc
          prior_scale prior_alpha prior_beta num_bootstrap_samples
          num_bootstrap_iterations dt num_jobs =
        Except.ok (Real.exp (Real.log
          ((1 - (bfCdfs erf scores_a scores_b eps_min_threshold
        prior_loc prior_scale prior_alpha prior_beta
        ((computeViolationRatio scores_a scores_b dt : ℝ),
        sigmaHat rand ambient scores_a scores_b num_bootstrap_samples
          num_bootstrap_iterations dt none,
        bootstrapSamples rand ambient scores_a scores_b
          num_bootstrap_iterations dt none)).1) *
      (bfCdfs erf scores_a scores_b eps_min_threshold
        prior_loc prior_scale prior_alpha prior_beta
        ((computeViolationRatio scores_a scores_b dt : ℝ),
        sigmaHat rand ambient scores_a scores_b num_bootstrap_samples
          num_bootstrap_iterations dt none,
        bootstrapSamples rand ambient scores_a scores_b
          num_bootstrap_iterations dt none)).2 + 1/1000000) -
          Real.log
          ((bfCdfs erf scores_a scores_b eps_min_threshold
        prior_loc prior_scale prior_alpha prior_beta
        ((computeViolationRatio scores_a scores_b dt : ℝ),
        sigmaHat rand ambient scores_a scores_b num_bootstrap_samples
          num_bootstrap_iterations dt none,
        bootstrapSamples rand ambient scores_a scores_b
          num_bootstrap_iterations dt none)).1 *
      (1 - (bfCdfs erf scores_a scores_b eps_min_threshold
        prior_loc prior_scale prior_alpha prior_beta
        ((computeViolationRatio scores_a scores_b dt : ℝ),
        sigmaHat rand ambient scores_a scores_b num_bootstrap_samples
          num_bootstrap_iterations dt none,
        bootstrapSamples rand ambient scores_a scores_b
          num_bootstrap_iterations dt none)).2) + 1/1000000))) ∧
      bf_aso erf rand ambient scores_a scores_b eps_min_threshold prior_loc
          prior_scale prior_alpha prior_beta num_bootstrap_samples
          num_bootstrap_iterations dt num_jobs =
        Except.ok (((1 - (bfCdfs erf scores_a scores_b eps_min_threshold
        prior_loc prior_scale prior_alpha prior_beta
        ((computeViolationRatio scores_a scores_b dt : ℝ),
        sigmaHat rand ambient scores_a scores_b num_bootstrap_samples
          num_bootstrap_iterations dt none,
        bootstrapSamples rand ambient scores_a scores_b
          num_bootstrap_iterations dt none)).1) *
      (bfCdfs erf scores_a scores_b eps_min_threshold
        prior_loc prior_scale prior_alpha prior_beta
        ((computeViolationRatio scores_a scores_b dt : ℝ),
        sigmaHat rand ambient scores_a scores_b num_bootstrap_samples
          num_bootstrap_iterations dt none,
        bootstrapSamples rand ambient scores_a scores_b
          num_bootstrap_iterations dt none)).2 + 1/1000000) /
          ((bfCdfs erf scores_a scores_b eps_min_threshold
        prior_loc prior_scale prior_alpha prior_beta
        ((computeViolationRatio scores_a scores_b dt : ℝ),
        sigmaHat rand ambient scores_a scores_b num_bootstrap_samples
          num_bootstrap_iterations dt none,
        bootstrapSamples rand ambient scores_a scores_b
          num_bootstrap_iterations dt none)).1 *
      (1 - (bfCdfs erf scores_a scores_b eps_min_threshold
        prior_loc prior_scale prior_alpha prior_beta
        ((computeViolationRatio scores_a scores_b dt : ℝ),
        sigmaHat rand ambient scores_a scores_b num_bootstrap_samples
          num_bootstrap_iterations dt none,
        bootstrapSamples rand ambient scores_a scores_b
          num_bootstrap_iterations dt none)).2) + 1/1000000))) ∧
    (squaredWassersteinDist scores_a scores_b dt = 0 →
      bf_aso erf rand ambient scores_a scores_b eps_min_threshold prior_loc
          prior_scale prior_alpha prior_beta num_bootstrap_samples
          num_bootstrap_iterations dt num_jobs =
        Except.error "TypeError: unsupported operand types for -: list and int") := by
  constructor
  · intro hswd
    have h := bf_aso_eq_ok_of_valid erf rand ambient eps_min_threshold prior_loc
      prior_scale prior_alpha prior_beta dt hA hB hns hit hj hswd
    refine ⟨h, ?_⟩
    rw [h, Real.exp_sub, Real.exp_log hnum, Real.exp_log hden]
  · intro hswd
    exact bf_aso_eq_error_of_degenerate erf rand ambient eps_min_threshold
      prior_loc prior_scale prior_alpha prior_beta dt hA hB hns hit hj hswd

/-! ### Concrete witness inputs for the Bayes factor run -/

theorem arangeGrid_half : arangeGrid (1/2) = [0, 1/2] := by
  unfold arangeGrid
  rw [show ((1 : ℚ) / (1/2)) = ((2 : ℤ) : ℚ) by norm_num, Int.ceil_intCast]
  simp [List.range_succ]

theorem wq0 : ∀ p : ℚ, quantileFunction [0] p = 0 :=
  fun p => quantileFunction_const (by simp) (by simp) p

theorem wSorted3 : sortedScores [-1, -1, 1] = [-1, -1, 1] := by
  apply List.Sorted.insertionSort_eq
  simp [List.sorted_cons]

theorem wClamped3 (p : ℚ) (z : ℤ) (hz : ⌈(3 : ℚ) * p⌉ = z) :
    clampedIndex 3 p = (min 2 (max 0 (z - 1))).toNat := by
  unfold clampedIndex
  rw [show ((3 : ℕ) : ℚ) = (3 : ℚ) by norm_num, hz]
  rfl

theorem wq3_eval (p : ℚ) (z : ℤ) (j : ℕ) (hz : ⌈(3 : ℚ) * p⌉ = z)
    (hj : (min 2 (max 0 (z - 1))).toNat = j) :
    quantileFunction [-1, -1, 1] p = ([-1, -1, 1] : List ℚ).getD j 0 := by
  unfold quantileFunction
  rw [wSorted3, show (([-1, -1, 1] : List ℚ).length) = 3 from rfl,
    wClamped3 p z hz, hj]

theorem wceil_910 : ⌈(3 : ℚ) * (9/10)⌉ = 3 := by
  rw [show (3 : ℚ) * (9/10) = 27/10 by norm_num]
  exact ceil_eval (by norm_num) (by norm_num)

theorem wceil_110 : ⌈(3 : ℚ) * (1/10)⌉ = 1 := by
  rw [show (3 : ℚ) * (1/10) = 3/10 by norm_num]
  exact ceil_eval (by norm_num) (by norm_num)

theorem wceil_half : ⌈(3 : ℚ) * (1/2)⌉ = 2 := by
  rw [show (3 : ℚ) * (1/2) = 3/2 by norm_num]
  exact ceil_eval (by norm_num) (by norm_num)

theorem wq3_910 : quantileFunction [-1, -1, 1] (9/10) = 1 := by
  rw [wq3_eval (9/10) 3 2 wceil_910 (by omega)]
  rfl

theorem wq3_110 : quantileFunction [-1, -1, 1] (1/10) = -1 := by
  rw [wq3_eval (1/10) 1 0 wceil_110 (by omega)]
  rfl

theorem wq3_0 : quantileFunction [-1, -1, 1] 0 = -1 := by
  rw [wq3_eval 0 0 0 (by rw [mul_zero]; exact Int.ceil_zero) (by omega)]
  rfl

theorem wq3_half : quantileFunction [-1, -1, 1] (1/2) = -1 := by
  rw [wq3_eval (1/2) 2 1 wceil_half (by omega)]
  rfl

/-- Baseline violation ratio of the witness run. -/
theorem wBaseline : computeViolationRatio [0] [-1, -1, 1] (1/2) = 0 := by
  unfold computeViolationRatio computeViolationRatioW squaredWassersteinDist intViolationSet
  rw [arangeGrid_half]
  simp only [List.map_cons, List.map_nil, List.sum_cons, List.sum_nil,
    wq0 0, wq0 (1/2), wq3_0, wq3_half]
  norm_num

/-- First bootstrap sample of the witness run. -/
theorem wSample0 : computeViolationRatio [0, 0] [1, 1] (1/2) = 1 := by
  have hqa : ∀ p : ℚ, quantileFunction [0, 0] p = 0 :=
    fun p => quantileFunction_const (by simp) (by simp) p
  have hqb : ∀ p : ℚ, quantileFunction [1, 1] p = 1 :=
    fun p => quantileFunction_const (by simp) (by simp) p
  unfold computeViolationRatio computeViolationRatioW squaredWassersteinDist intViolationSet
  rw [arangeGrid_half]
  simp only [List.map_cons, List.map_nil, List.sum_cons, List.sum_nil,
    hqa 0, hqa (1/2), hqb 0, hqb (1/2)]
  norm_num

/-- Second bootstrap sample of the witness run. -/
theorem wSample1 : computeViolationRatio [0, 0] [-1, -1] (1/2) = 0 := by
  apply computeViolationRatio_eq_zero_of_dominated
  intro p
  exact le_trans
    (quantileFunction_nonpos (by intro x hx; simp at hx; rw [hx]; norm_num) p)
    (quantileFunction_nonneg (by intro x hx; simp at hx; rw [hx]) p)

theorem wSamples : bootstrapSamples wRand wAmbient [0] [-1, -1, 1] 2 (1/2) none = [1, 0] := by
  unfold bootstrapSamples
  rw [show ((2 : ℤ).toNat) = 2 from rfl, show List.range 2 = [0, 1] from rfl]
  simp only [List.map_cons, List.map_nil]
  rw [show iterDraws wRand wAmbient none 0 = ([1/2, 1/2], [9/10, 9/10]) from rfl,
    show iterDraws wRand wAmbient none 1 = ([1/2, 1/2], [1/10, 1/10]) from rfl]
  unfold bootstrapIter
  simp only [List.map_cons, List.map_nil, wq0 (1/2), wq3_910, wq3_110]
  rw [wSample0, wSample1]

theorem realStd_pair : realStd [(1 : ℝ), 0] = 1/2 := by
  have h : ((([(1 : ℝ), 0]).map
      (fun x => (x - ([(1 : ℝ), 0]).sum / (([(1 : ℝ), 0]).length : ℝ)) ^ 2)).sum) /
        ((([(1 : ℝ), 0]).length : ℝ)) = (1/2) ^ 2 := by
    simp only [List.map_cons, List.map_nil, List.sum_cons, List.sum_nil,
      List.length_cons, List.length_nil]
    norm_num
  unfold realStd
  rw [h]
  exact Real.sqrt_sq (by norm_num)

theorem wSigma : sigmaHat wRand wAmbient [0] [-1, -1, 1] 2 2 (1/2) none = 1/2 := by
  show realStd ((bootstrapSamples wRand wAmbient [0] [-1, -1, 1] 2 (1/2) none).map
    (fun (s : ℚ) => Real.sqrt (((2 : ℤ) : ℝ) ^ 2 / (2 * ((2 : ℤ) : ℝ))) *
      ((s : ℝ) - ((computeViolationRatio [0] [-1, -1, 1] (1/2) : ℚ) : ℝ)))) = 1/2
  rw [wSamples, wBaseline]
  rw [show (((2 : ℤ) : ℝ) ^ 2 / (2 * ((2 : ℤ) : ℝ))) = 1 by push_cast; norm_num,
    Real.sqrt_one]
  simp only [List.map_cons, List.map_nil, Rat.cast_zero, Rat.cast_one, sub_zero,
    one_mul]
  exact realStd_pair

theorem wMean : ((listMean [1, 0] : ℚ) : ℝ) = 1/2 := by
  rw [show listMean [1, 0] = 1/2 by norm_num [listMean]]
  norm_num

theorem wCdfs : bfCdfs wErf [0] [-1, -1, 1] (1/2) (1/2) 1 1 0
    ((computeViolationRatio [0] [-1, -1, 1] (1/2) : ℝ),
      sigmaHat wRand wAmbient [0] [-1, -1, 1] 2 2 (1/2) none,
      bootstrapSamples wRand wAmbient [0] [-1, -1, 1] 2 (1/2) none) =
    (normal_inverse_gamma_cdf wErf (1/2) (Real.sqrt 2 * (1/2)) (1/2) 5 3 (1/4),
     normal_inverse_gamma_cdf wErf (1/2) (Real.sqrt 2 * (1/2)) (1/2) 1 1 0) := by
  simp only [bfCdfs]
  rw [wSigma, wSamples, wMean]
  rw [show ((([0] : List ℚ).length : ℝ) +
      (([-1, -1, 1] : List ℚ).length : ℝ) /
        ((([0] : List ℚ).length : ℝ) * (([-1, -1, 1] : List ℚ).length : ℝ))) = 2 by
    norm_num]
  norm_num

theorem exp_log_sub_lt_one {A B : ℝ} (hA : 0 < A) (hAB : A < B) :
    Real.exp (Real.log A - Real.log B) < 1 := by
  have h := Real.log_lt_log hA hAB
  have h2 := Real.exp_lt_exp.mpr (sub_neg.mpr h)
  rwa [Real.exp_zero] at h2

theorem nig_cdf_wErf (x varr loc scale alpha beta : ℝ) :
    normal_inverse_gamma_cdf wErf x varr loc scale alpha beta =
      Real.exp (Real.log
        (Real.exp (-beta / (varr + 1/1000000)) +
          (beta / (varr + 1/1000000)) ^ alpha) -
        Real.log (2 * varr * Real.Gamma alpha + 1/1000000)) := by
  unfold normal_inverse_gamma_cdf wErf
  simp only [add_zero]

theorem nig_cdf_pos (erf : ℝ → ℝ) (x varr loc scale alpha beta : ℝ) :
    0 < normal_inverse_gamma_cdf erf x varr loc scale alpha beta :=
  Real.exp_pos _

theorem wSqrt2_gt : (1.4 : ℝ) < Real.sqrt 2 :=
  (Real.lt_sqrt (by norm_num)).mpr (by norm_num)

theorem wSqrt2_lt : Real.sqrt 2 < 1.5 :=
  (Real.sqrt_lt' (by norm_num)).mpr (by norm_num)

theorem wGamma3 : Real.Gamma 3 = 2 := by
  rw [show (3 : ℝ) = ((2 : ℕ) : ℝ) + 1 by norm_num, Real.Gamma_nat_eq_factorial]
  norm_num

/-- The posterior NIG CDF of the witness run is strictly below 1. -/
theorem wCdfPost_lt_one :
    normal_inverse_gamma_cdf wErf (1/2) (Real.sqrt 2 * (1/2)) (1/2) 5 3 (1/4) < 1 := by
  rw [nig_cdf_wErf, neg_div]
  have hv2a := wSqrt2_gt
  have hv2b := wSqrt2_lt
  have hev : (0.7 : ℝ) < Real.sqrt 2 * (1/2) + 1/1000000 := by linarith
  set c : ℝ := (1/4) / (Real.sqrt 2 * (1/2) + 1/1000000) with hcdef
  have hc0 : 0 < c := div_pos (by norm_num) (by linarith)
  have hc : c < 1/2 := by
    rw [hcdef, div_lt_iff (by linarith)]
    linarith
  have hrpow : c ^ (3 : ℝ) = c ^ (3 : ℕ) := by
    rw [show (3 : ℝ) = ((3 : ℕ) : ℝ) by norm_num, Real.rpow_natCast]
  have hexp : Real.exp (-c) < 1 := by
    have h2 := Real.exp_lt_exp.mpr (show -c < 0 by linarith)
    rwa [Real.exp_zero] at h2
  have hpow : c ^ (3 : ℕ) < (1/2 : ℝ) ^ (3 : ℕ) :=
    pow_lt_pow_left₀ hc (le_of_lt hc0) (by norm_num)
  have hA : Real.exp (-c) + c ^ (3 : ℝ) < 9/8 := by
    rw [hrpow]
    have : ((1/2 : ℝ)) ^ (3 : ℕ) = 1/8 := by norm_num
    linarith
  have hApos : 0 < Real.exp (-c) + c ^ (3 : ℝ) := by positivity
  have hB : (9/8 : ℝ) < 2 * (Real.sqrt 2 * (1/2)) * Real.Gamma 3 + 1/1000000 := by
    rw [wGamma3]
    nlinarith
  exact exp_log_sub_lt_one hApos (hA.trans hB)

/-- The prior NIG CDF of the witness run is strictly below 1. -/
theorem wCdfPrior_lt_one :
    normal_inverse_gamma_cdf wErf (1/2) (Real.sqrt 2 * (1/2)) (1/2) 1 1 0 < 1 := by
  rw [nig_cdf_wErf]
  have hv2a := wSqrt2_gt
  have hA : Real.exp (-(0 : ℝ) / (Real.sqrt 2 * (1/2) + 1/1000000)) +
      ((0 : ℝ) / (Real.sqrt 2 * (1/2) + 1/1000000)) ^ (1 : ℝ) = 1 := by
    rw [neg_zero, zero_div, Real.exp_zero, Real.zero_rpow one_ne_zero, add_zero]
  rw [hA]
  have hB : (1 : ℝ) < 2 * (Real.sqrt 2 * (1/2)) * Real.Gamma 1 + 1/1000000 := by
    rw [Real.Gamma_one]
    nlinarith
  exact exp_log_sub_lt_one (by norm_num) hB

/-- Positivity of the guarded numerator of the witness Bayes factor. -/
theorem wNum_pos :
    0 < (1 - (bfCdfs wErf [0] [-1, -1, 1] (1/2) (1/2) 1 1 0
      ((computeViolationRatio [0] [-1, -1, 1] (1/2) : ℝ),
        sigmaHat wRand wAmbient [0] [-1, -1, 1] 2 2 (1/2) none,
        bootstrapSamples wRand wAmbient [0] [-1, -1, 1] 2 (1/2) none)).1) *
      (bfCdfs wErf [0] [-1, -1, 1] (1/2) (1/2) 1 1 0
      ((computeViolationRatio [0] [-1, -1, 1] (1/2) : ℝ),
        sigmaHat wRand wAmbient [0] [-1, -1, 1] 2 2 (1/2) none,
        bootstrapSamples wRand wAmbient [0] [-1, -1, 1] 2 (1/2) none)).2 + 1/1000000 := by
  rw [wCdfs]
  have ha := wCdfPost_lt_one
  have hb := nig_cdf_pos wErf (1/2) (Real.sqrt 2 * (1/2)) (1/2) 1 1 0
  show 0 < (1 - normal_inverse_gamma_cdf wErf (1/2) (Real.sqrt 2 * (1/2))
      (1/2) 5 3 (1/4)) * normal_inverse_gamma_cdf wErf (1/2)
      (Real.sqrt 2 * (1/2)) (1/2) 1 1 0 + 1/1000000
  nlinarith

/-- Positivity of the guarded denominator of the witness Bayes factor. -/
theorem wDen_pos :
    0 < (bfCdfs wErf [0] [-1, -1, 1] (1/2) (1/2) 1 1 0
      ((computeViolationRatio [0] [-1, -1, 1] (1/2) : ℝ),
        sigmaHat wRand wAmbient [0] [-1, -1, 1] 2 2 (1/2) none,
        bootstrapSamples wRand wAmbient [0] [-1, -1, 1] 2 (1/2) none)).1 *
      (1 - (bfCdfs wErf [0] [-1, -1, 1] (1/2) (1/2) 1 1 0
      ((computeViolationRatio [0] [-1, -1, 1] (1/2) : ℝ),
        sigmaHat wRand wAmbient [0] [-1, -1, 1] 2 2 (1/2) none,
        bootstrapSamples wRand wAmbient [0] [-1, -1, 1] 2 (1/2) none)).2) + 1/1000000 := by
  rw [wCdfs]
  have ha := nig_cdf_pos wErf (1/2) (Real.sqrt 2 * (1/2)) (1/2) 5 3 (1/4)
  have hb := wCdfPrior_lt_one
  show 0 < normal_inverse_gamma_cdf wErf (1/2) (Real.sqrt 2 * (1/2)) (1/2) 5 3
      (1/4) * (1 - normal_inverse_gamma_cdf wErf (1/2) (Real.sqrt 2 * (1/2))
      (1/2) 1 1 0) + 1/1000000
  nlinarith

/-- Witness for (amended) C9: a concrete Bayes-factor run (`A = [0]`,
`B = [-1, -1, 1]`, two bootstrap iterations drawing `[9/10, 9/10]` then
`[1/10, 1/10]` for B) whose guarded numerator and denominator are provably
positive. -/
theorem C9_bf_aso_savage_dickey_witness :
    (([0] : List ℚ) ≠ [] ∧ ([-1, -1, 1] : List ℚ) ≠ [] ∧ (0 : ℤ) < 2 ∧
      (0 : ℤ) < 2 ∧ (1 : ℤ) ≤ 1 ∧
      (0 < (1 - (bfCdfs wErf [0] [-1, -1, 1] (1/2) (1/2) 1 1 0
      ((computeViolationRatio [0] [-1, -1, 1] (1/2) : ℝ),
        sigmaHat wRand wAmbient [0] [-1, -1, 1] 2 2 (1/2) none,
        bootstrapSamples wRand wAmbient [0] [-1, -1, 1] 2 (1/2) none)).1) *
      (bfCdfs wErf [0] [-1, -1, 1] (1/2) (1/2) 1 1 0
      ((computeViolationRatio [0] [-1, -1, 1] (1/2) : ℝ),
        sigmaHat wRand wAmbient [0] [-1, -1, 1] 2 2 (1/2) none,
        bootstrapSamples wRand wAmbient [0] [-1, -1, 1] 2 (1/2) none)).2 + 1/1000000) ∧
      (0 < (bfCdfs wErf [0] [-1, -1, 1] (1/2) (1/2) 1 1 0
      ((computeViolationRatio [0] [-1, -1, 1] (1/2) : ℝ),
        sigmaHat wRand wAmbient [0] [-1, -1, 1] 2 2 (1/2) none,
        bootstrapSamples wRand wAmbient [0] [-1, -1, 1] 2 (1/2) none)).1 *
      (1 - (bfCdfs wErf [0] [-1, -1, 1] (1/2) (1/2) 1 1 0
      ((computeViolationRatio [0] [-1, -1, 1] (1/2) : ℝ),
        sigmaHat wRand wAmbient [0] [-1, -1, 1] 2 2 (1/2) none,
        bootstrapSamples wRand wAmbient [0] [-1, -1, 1] 2 (1/2) none)).2) + 1/1000000)) ∧
    ((squaredWassersteinDist [0] [-1, -1, 1] (1/2) ≠ 0 →
      bf_aso wErf wRand wAmbient [0] [-1, -1, 1] (1/2) (1/2) 1 1 0 2 2 (1/2) 1 =
        Except.ok (Real.exp (Real.log
          ((1 - (bfCdfs wErf [0] [-1, -1, 1] (1/2) (1/2) 1 1 0
      ((computeViolationRatio [0] [-1, -1, 1] (1/2) : ℝ),
        sigmaHat wRand wAmbient [0] [-1, -1, 1] 2 2 (1/2) none,
        bootstrapSamples wRand wAmbient [0] [-1, -1, 1] 2 (1/2) none)).1) *
      (bfCdfs wErf [0] [-1, -1, 1] (1/2) (1/2) 1 1 0
      ((computeViolationRatio [0] [-1, -1, 1] (1/2) : ℝ),
        sigmaHat wRand wAmbient [0] [-1, -1, 1] 2 2 (1/2) none,
        bootstrapSamples wRand wAmbient [0] [-1, -1, 1] 2 (1/2) none)).2 + 1/1000000) -
          Real.log
          ((bfCdfs wErf [0] [-1, -1, 1] (1/2) (1/2) 1 1 0
      ((computeViolationRatio [0] [-1, -1, 1] (1/2) : ℝ),
        sigmaHat wRand wAmbient [0] [-1, -1, 1] 2 2 (1/2) none,
        bootstrapSamples wRand wAmbient [0] [-1, -1, 1] 2 (1/2) none)).1 *
      (1 - (bfCdfs wErf [0] [-1, -1, 1] (1/2) (1/2) 1 1 0
      ((computeViolationRatio [0] [-1, -1, 1] (1/2) : ℝ),
        sigmaHat wRand wAmbient [0] [-1, -1, 1] 2 2 (1/2) none,
        bootstrapSamples wRand wAmbient [0] [-1, -1, 1] 2 (1/2) none)).2) + 1/1000000))) ∧
      bf_aso wErf wRand wAmbient [0] [-1, -1, 1] (1/2) (1/2) 1 1 0 2 2 (1/2) 1 =
        Except.ok (((1 - (bfCdfs wErf [0] [-1, -1, 1] (1/2) (1/2) 1 1 0
      ((computeViolationRatio [0] [-1, -1, 1] (1/2) : ℝ),
        sigmaHat wRand wAmbient [0] [-1, -1, 1] 2 2 (1/2) none,
        bootstrapSamples wRand wAmbient [0] [-1, -1, 1] 2 (1/2) none)).1) *
      (bfCdfs wErf [0] [-1, -1, 1] (1/2) (1/2) 1 1 0
      ((computeViolationRatio [0] [-1, -1, 1] (1/2) : ℝ),
        sigmaHat wRand wAmbient [0] [-1, -1, 1] 2 2 (1/2) none,
        bootstrapSamples wRand wAmbient [0] [-1, -1, 1] 2 (1/2) none)).2 + 1/1000000) /
          ((bfCdfs wErf [0] [-1, -1, 1] (1/2) (1/2) 1 1 0
      ((computeViolationRatio [0] [-1, -1, 1] (1/2) : ℝ),
        sigmaHat wRand wAmbient [0] [-1, -1, 1] 2 2 (1/2) none,
        bootstrapSamples wRand wAmbient [0] [-1, -1, 1] 2 (1/2) none)).1 *
      (1 - (bfCdfs wErf [0] [-1, -1, 1] (1/2) (1/2) 1 1 0
      ((computeViolationRatio [0] [-1, -1, 1] (1/2) : ℝ),
        sigmaHat wRand wAmbient [0] [-1, -1, 1] 2 2 (1/2) none,
        bootstrapSamples wRand wAmbient [0] [-1, -1, 1] 2 (1/2) none)).2) + 1/1000000))) ∧
    (squaredWassersteinDist [0] [-1, -1, 1] (1/2) = 0 →
      bf_aso wErf wRand wAmbient [0] [-1, -1, 1] (1/2) (1/2) 1 1 0 2 2 (1/2) 1 =
        Except.error "TypeError: unsupported operand types for -: list and int")) :=
  ⟨⟨by simp, by simp, by norm_num, by norm_num, by norm_num, wNum_pos, wDen_pos⟩,
    C9_bf_aso_savage_dickey wErf wRand wAmbient [0] [-1, -1, 1] (1/2) (1/2) 1 1
      0 2 2 (1/2) 1 (by simp) (by simp) (by norm_num) (by norm_num)
      (by norm_num) wNum_pos wDen_pos⟩
